import Mathlib

/-!
Verification of the DSY-Core generation-routing and multi-provider
orchestration layer.

The definitions below are a shallow embedding of the JavaScript sources:

* `src/src/services/geminiService.js` — credential pool (`getRandomKey`,
  `markKeyFailed`), the Prompt Optimizer (`optimizePrompt`,
  `parseOptimizationOutput`), the Gemini code generator
  (`generateWebPageWithImages`, `parseGeneratedCode`, `compileLivePreview`),
  and the Generation Router (`generateCode`, `generateTextOnly`,
  `generateWithImage`, `generateReactWithGemini`).
* `src/unnamed/part_007` — the SambaNova service (`generateWebPage`,
  `parseGeneratedCode`, `chat` and its helpers).
* `src/unnamed/part_006` — the HuggingFace preprocessor
  (`preprocessImage`, `buildDesignJSON`).

Network effects (fetch) are modelled by oracles: each embedded provider call
consumes one `FetchOutcome` from an oracle indexed by attempt number.
`Math.random()`-based credential selection is modelled by a `Nat` oracle used
modulo the candidate-list length, so every index the source can pick is
reachable.  JavaScript strings are modelled by Lean `String`
(the repository inputs relevant to the claims are ASCII, where JS UTF-16
length and Lean codepoint length agree).  JSON numbers are modelled as
integers: the design-spec JSONs produced and consumed by this repository use
only integer numerals, and no claim depends on fractional numbers.
-/

/-! ## Generic list/string utilities (JS string primitives) -/

/-- Prefix test on character lists with a custom character comparison. -/
def listStartsWithBy (eqc : Char → Char → Bool) : List Char → List Char → Bool
  | [], _ => true
  | _ :: _, [] => false
  | p :: ps, c :: cs => eqc p c && listStartsWithBy eqc ps cs

/-- Case-sensitive character equality. -/
def eqCS (a b : Char) : Bool := a == b

/-- Case-insensitive character equality (ASCII lowering, as the scanned
markers are ASCII). -/
def eqCI (a b : Char) : Bool := a.toLower == b.toLower

/-- Split at the first occurrence of `pat` (non-empty), returning the part
before the occurrence and the part after it.  `none` when `pat` does not
occur. -/
def splitAtSubByAux (eqc : Char → Char → Bool) (pat : List Char) (acc : List Char) :
    List Char → Option (List Char × List Char)
  | [] => none
  | c :: cs =>
    if listStartsWithBy eqc pat (c :: cs) then some (acc.reverse, (c :: cs).drop pat.length)
    else splitAtSubByAux eqc pat (c :: acc) cs

/-- Split at the first occurrence of `pat`; the empty pattern occurs at the
start. -/
def splitAtSubBy (eqc : Char → Char → Bool) (pat l : List Char) :
    Option (List Char × List Char) :=
  if pat.isEmpty then some ([], l) else splitAtSubByAux eqc pat [] l

/-- Case-sensitive first-occurrence split. -/
def splitAtSub (pat l : List Char) : Option (List Char × List Char) :=
  splitAtSubBy eqCS pat l

/-- Case-insensitive first-occurrence split. -/
def splitAtSubCI (pat l : List Char) : Option (List Char × List Char) :=
  splitAtSubBy eqCI pat l

/-- Substring containment on character lists (case-sensitive), the model of
JS `String.prototype.includes`. -/
def containsSub (pat l : List Char) : Bool := (splitAtSub pat l).isSome

/-- JS `s.includes(pat)`. -/
def containsStr (s pat : String) : Bool := containsSub pat.data s.data

/-- The whitespace class of JS regular expressions (`\s`), restricted to the
characters that occur in this repository's data. -/
def isJsWs (c : Char) : Bool :=
  c == ' ' || c == '\t' || c == '\n' || c == '\r' || c == '\x0b' || c == '\x0c' ||
  c == '\u00A0'

/-- JS `String.prototype.trim` on character lists. -/
def jsTrimList (l : List Char) : List Char :=
  ((l.dropWhile isJsWs).reverse.dropWhile isJsWs).reverse

/-- JS `String.prototype.trim`. -/
def jsTrim (s : String) : String := String.mk (jsTrimList s.data)

/-- Suffix test on character lists. -/
def listEndsWith (pat l : List Char) : Bool :=
  listStartsWithBy eqCS pat.reverse l.reverse

/-- JS `s.split(sep)` for a one-character separator (splitting the empty
string yields one empty piece, as in JS). -/
def splitLines : List Char → List (List Char)
  | [] => [[]]
  | c :: cs =>
    let rest := splitLines cs
    if c == '\n' then [] :: rest
    else
      match rest with
      | r :: rs => (c :: r) :: rs
      | [] => [[c]]

/-- JS `parts.join(sep)` on character lists. -/
def joinWith (sep : List Char) : List (List Char) → List Char
  | [] => []
  | [x] => x
  | x :: xs => x ++ sep ++ joinWith sep xs

/-- Left brace character, kept symbolic. -/
def lbrace : Char := Char.ofNat 123

/-- Right brace character, kept symbolic. -/
def rbrace : Char := Char.ofNat 125

/-! ## JSON values (results of `JSON.parse`) -/

/-- JSON values as produced by `JSON.parse`.  Numbers are modelled as
integers (see the header note). -/
inductive Json where
  | null : Json
  | bool (b : Bool) : Json
  | num (n : Int) : Json
  | str (s : String) : Json
  | arr (elems : List Json) : Json
  | obj (fields : List (String × Json)) : Json
deriving Repr, BEq, Inhabited

/-- JS property access `j[k]` on a JSON value: defined (`some`) only on
objects; for duplicate keys the last binding wins, as in `JSON.parse`. -/
def Json.getField : Json → String → Option Json
  | .obj fields, k => (fields.reverse.find? (fun f => f.1 == k)).map (fun f => f.2)
  | _, _ => none

/-- JS truthiness of a JSON value. -/
def Json.truthy : Json → Bool
  | .null => false
  | .bool b => b
  | .num n => !(n == 0)
  | .str s => !(s == "")
  | .arr _ => true
  | .obj _ => true

/-- JS truthiness of a possibly-undefined value (`undefined` is falsy). -/
def optTruthy (j : Option Json) : Bool :=
  match j with
  | some v => v.truthy
  | none => false

/-! ### A small `JSON.parse` model (recursive descent with fuel) -/

/-- JSON whitespace (RFC 8259, as accepted by `JSON.parse`). -/
def isJsonWs (c : Char) : Bool :=
  c == ' ' || c == '\t' || c == '\n' || c == '\r'

/-- Value of one hexadecimal digit, via its code point. -/
def hexDigit (c : Char) : Option Nat :=
  let n := c.toNat
  if 48 ≤ n && n ≤ 57 then some (n - 48)
  else if 97 ≤ n && n ≤ 102 then some (n - 87)
  else if 65 ≤ n && n ≤ 70 then some (n - 55)
  else none

/-- The single-character escapes `JSON.parse` accepts, as a lookup table. -/
def jsonEscapePairs : List (Char × Char) :=
  [('"', '"'), ('\\', '\\'), ('/', '/'), ('b', '\x08'), ('f', '\x0c'),
   ('n', '\n'), ('r', '\r'), ('t', '\t')]

/-- Decode a `\uXXXX` code unit: four hex digits to a character. -/
def decodeHex4 (l : List Char) : Option (Char × List Char) :=
  match l with
  | h1 :: h2 :: h3 :: h4 :: rest =>
    match hexDigit h1, hexDigit h2, hexDigit h3, hexDigit h4 with
    | some v1, some v2, some v3, some v4 =>
      some (Char.ofNat (((v1 * 16 + v2) * 16 + v3) * 16 + v4), rest)
    | _, _, _, _ => none
  | _ => none

/-- Parse the body of a JSON string (after the opening quote), handling the
escape sequences `JSON.parse` accepts via the lookup table. -/
def parseStringBody : Nat → List Char → List Char → Option (String × List Char)
  | 0, _, _ => none
  | _, [], _ => none
  | f + 1, c :: cs, acc =>
    if c == '"' then some (String.mk acc.reverse, cs)
    else if c == '\\' then
      match cs with
      | [] => none
      | e :: cs2 =>
        match jsonEscapePairs.find? (fun pr => pr.1 == e) with
        | some pr => parseStringBody f cs2 (pr.2 :: acc)
        | none =>
          if e == 'u' then
            match decodeHex4 cs2 with
            | some (ch, cs3) => parseStringBody f cs3 (ch :: acc)
            | none => none
          else none
    else parseStringBody f cs (c :: acc)

/-- Parse an unsigned JSON integer literal (no leading zeros). -/
def parseJsonDigits (l : List Char) : Option (Nat × List Char) :=
  let ds := l.takeWhile Char.isDigit
  let rest := l.drop ds.length
  match ds with
  | [] => none
  | [d] => some (d.toNat - '0'.toNat, rest)
  | d :: _ =>
    if d == '0' then none
    else some (ds.foldl (fun acc c => acc * 10 + (c.toNat - '0'.toNat)) 0, rest)

mutual

/-- Parse one JSON value. -/
def parseJsonValue : Nat → List Char → Option (Json × List Char)
  | 0, _ => none
  | f + 1, l =>
    let l1 := l.dropWhile isJsonWs
    match l1 with
    | [] => none
    | c :: cs =>
      if c == '"' then
        match parseStringBody f cs [] with
        | some (s, rest) => some (Json.str s, rest)
        | none => none
      else if c == lbrace then parseJsonFields f cs []
      else if c == '[' then parseJsonElems f cs []
      else if listStartsWithBy eqCS "true".data l1 then some (Json.bool true, l1.drop 4)
      else if listStartsWithBy eqCS "false".data l1 then some (Json.bool false, l1.drop 5)
      else if listStartsWithBy eqCS "null".data l1 then some (Json.null, l1.drop 4)
      else if c == '-' then
        match parseJsonDigits cs with
        | some (n, rest) =>
          match rest with
          | r :: _ => if r == '.' || r == 'e' || r == 'E' then none else some (Json.num (-(n : Int)), rest)
          | [] => some (Json.num (-(n : Int)), rest)
        | none => none
      else
        match parseJsonDigits l1 with
        | some (n, rest) =>
          match rest with
          | r :: _ => if r == '.' || r == 'e' || r == 'E' then none else some (Json.num (n : Int), rest)
          | [] => some (Json.num (n : Int), rest)
        | none => none

/-- Parse the members of a JSON object (after the opening brace). -/
def parseJsonFields : Nat → List Char → List (String × Json) →
    Option (Json × List Char)
  | 0, _, _ => none
  | f + 1, l, acc =>
    let l1 := l.dropWhile isJsonWs
    match l1 with
    | [] => none
    | c :: cs =>
      if c == rbrace then
        if acc.isEmpty then some (Json.obj [], cs) else none
      else if c == '"' then
        match parseStringBody f cs [] with
        | none => none
        | some (k, rest) =>
          let rest1 := rest.dropWhile isJsonWs
          match rest1 with
          | ':' :: rest2 =>
            match parseJsonValue f rest2 with
            | none => none
            | some (v, rest3) =>
              let rest4 := rest3.dropWhile isJsonWs
              match rest4 with
              | ',' :: rest5 => parseJsonFields f rest5 (acc ++ [(k, v)])
              | r :: rest5 =>
                if r == rbrace then some (Json.obj (acc ++ [(k, v)]), rest5) else none
              | [] => none
          | _ => none
      else none

/-- Parse the elements of a JSON array (after the opening bracket). -/
def parseJsonElems : Nat → List Char → List Json → Option (Json × List Char)
  | 0, _, _ => none
  | f + 1, l, acc =>
    let l1 := l.dropWhile isJsonWs
    match l1 with
    | [] => none
    | c :: cs =>
      if c == ']' then
        if acc.isEmpty then some (Json.arr [], cs) else none
      else
        match parseJsonValue f l1 with
        | none => none
        | some (v, rest) =>
          let rest1 := rest.dropWhile isJsonWs
          match rest1 with
          | ',' :: rest2 => parseJsonElems f rest2 (acc ++ [v])
          | ']' :: rest2 => some (Json.arr (acc ++ [v]), rest2)
          | _ => none

end

/-- The model of `JSON.parse`: `none` when JS would throw a `SyntaxError`. -/
def jsonParse (s : String) : Option Json :=
  match parseJsonValue (4 * s.length + 16) s.data with
  | some (j, rest) => if (rest.dropWhile isJsonWs).isEmpty then some j else none
  | none => none

/-! ## Credential pool (geminiService.js lines 14–74) -/

/-- The credential-pool state: the configured key list (`GEMINI_API_KEYS`)
and the mutable temporarily-failed subset (`failedKeys`, a JS `Set` in
insertion order). -/
structure PoolState where
  keys : List String
  failed : List String
deriving Repr, DecidableEq

/-- Embeds `markKeyFailed` (geminiService.js line 63): `Set.add`, idempotent. -/
def markKeyFailed (st : PoolState) (k : String) : PoolState :=
  if st.failed.contains k then st else { st with failed := st.failed ++ [k] }

/-- Embeds `resetFailedKeys` (geminiService.js line 71). -/
def resetFailedKeys (st : PoolState) : PoolState := { st with failed := [] }

/-- Embeds `getRandomKey` (geminiService.js lines 27–44).  `r` is the
randomness oracle: `Math.floor(Math.random() * n)` is modelled as `r % n`,
which reaches every index the source can reach.  The second component is the
pool state after the call (the reset branch clears `failedKeys`). -/
def getRandomKey (st : PoolState) (excludeKey : Option String) (r : Nat) :
    Option String × PoolState :=
  if st.keys.length == 0 then (none, st)
  else
    let availableKeys := st.keys.filter (fun k => !(st.failed.contains k) && !(some k == excludeKey))
    if availableKeys.length == 0 then
      let st1 : PoolState := { st with failed := [] }
      let resetKeys := st.keys.filter (fun k => !(some k == excludeKey))
      if resetKeys.length == 0 then (st.keys.get? 0, st1)
      else (resetKeys.get? (r % resetKeys.length), st1)
    else (availableKeys.get? (r % availableKeys.length), st)

/-! ## Provider-call outcomes

A `FetchOutcome` is what one embedded provider HTTP call produces:
`rateLimited` models status 429, `httpError` models a non-2xx response or a
thrown network error (carrying the message the JS code would extract), and
`ok` carries `data.candidates[0].content.parts[0].text || ""`.  Outbound
request bodies (prompt text, inline images) do not influence the modelled
oracle and are therefore not serialized in the embedding. -/

inductive FetchOutcome where
  | rateLimited : FetchOutcome
  | httpError (msg : String) : FetchOutcome
  | ok (body : String) : FetchOutcome
deriving Repr, BEq

/-- An attached asset: `{ type, data, name }`.  `data` is `none` when the
JS object lacks the field (`undefined`). -/
structure Asset where
  type : String
  data : Option String := none
  name : Option String := none
deriving Repr, BEq

/-! ## Fenced-code-block scanning (geminiService.js lines 739–752)

The regex is `/(three backticks)(\w+)?\s*\n?([\s\S]*?)(three backticks)/g`:
an opening fence, an optional word-character language tag, greedy whitespace
(which subsumes the optional newline), then a lazy body ending at the next
fence.  The scan restarts after each full match. -/

/-- Backtick character, kept symbolic. -/
def btick : Char := Char.ofNat 96

/-- A triple-backtick fence. -/
def fenceChars : List Char := [btick, btick, btick]

/-- JS regex `\w`. -/
def isWordChar (c : Char) : Bool := c.isAlphanum || c == '_'

/-- One scanned fenced block: lower-cased language tag and raw body. -/
structure CodeBlock where
  language : String
  content : String
deriving Repr, BEq, DecidableEq

/-- Fenced-block scanner; fuel bounds the number of blocks (each block
consumes at least the six fence characters). -/
def scanCodeBlocksF : Nat → List Char → List CodeBlock
  | 0, _ => []
  | f + 1, l =>
    match splitAtSub fenceChars l with
    | none => []
    | some (_, afterOpen) =>
      let word := afterOpen.takeWhile isWordChar
      let r1 := afterOpen.drop word.length
      let r2 := r1.dropWhile isJsWs
      match splitAtSub fenceChars r2 with
      | none => []
      | some (body, rest) =>
        ⟨String.mk (word.map Char.toLower), String.mk body⟩ :: scanCodeBlocksF f rest

/-- All fenced blocks of a response, in order of appearance. -/
def scanCodeBlocks (s : String) : List CodeBlock := scanCodeBlocksF s.length s.data

/-- Generic leftmost-match scanner: try a matcher at every position, left to
right (the semantics of `String.prototype.match` without the global flag). -/
def findFirstSome {α : Type} (tryAt : List Char → Option α) : List Char → Option α
  | [] => none
  | c :: rest =>
    match tryAt (c :: rest) with
    | some m => some m
    | none => findFirstSome tryAt rest

/-! ## Gemini service (geminiService.js) -/

namespace GeminiService

/-- First loop of `parseGeneratedCode` (lines 755–763): classify blocks by
explicit language tag; a slot is re-assignable while its current value is
falsy (the empty string). -/
def taggedPass : List CodeBlock → String → String → String × String
  | [], h, c => (h, c)
  | b :: bs, h, c =>
    if b.language == "html" && h == "" then taggedPass bs (jsTrim b.content) c
    else if b.language == "css" && c == "" then taggedPass bs h (jsTrim b.content)
    else taggedPass bs h c

/-- Character class of the selector regex `[\.\#\w\-]`. -/
def isSelectorChar (c : Char) : Bool := c == '.' || c == '#' || isWordChar c || c == '-'

/-- The test `/[\.\#\w\-]+\s*(lbrace)/.test(t)` (line 788): somewhere a
selector character is followed, after optional whitespace, by a left
brace. -/
def cssSelectorTest : List Char → Bool
  | [] => false
  | c :: rest =>
    (isSelectorChar c && ((rest.dropWhile isJsWs).head? == some lbrace)) || cssSelectorTest rest

/-- Second loop of `parseGeneratedCode` (lines 766–795): structural sniffing
of untagged blocks. -/
def untaggedPass : List CodeBlock → String → String → String × String
  | [], h, c => (h, c)
  | b :: bs, h, c =>
    if b.language == "" then
      let t := jsTrim b.content
      if h == "" &&
          (containsStr t "<!DOCTYPE" || containsStr t "<html" || containsStr t "<head" ||
           containsStr t "<body") then
        untaggedPass bs t c
      else if c == "" &&
          (containsStr t (String.mk [lbrace]) && containsStr t (String.mk [rbrace]) &&
           (containsStr t ":" || containsStr t ";")) then
        if cssSelectorTest t.data then untaggedPass bs h t else untaggedPass bs h c
      else untaggedPass bs h c
    else untaggedPass bs h c

/-- Matcher for `/<!DOCTYPE\s+html[^>]*>[\s\S]*?<\/html>/i` at the current
position (fallback 1, line 802). -/
def tryDoctypeAt (l : List Char) : Option (List Char) :=
  if listStartsWithBy eqCI "<!DOCTYPE".data l then
    let r0 := l.drop 9
    let ws := r0.takeWhile isJsWs
    if ws.isEmpty then none
    else
      let r1 := r0.drop ws.length
      if listStartsWithBy eqCI "html".data r1 then
        let r2 := r1.drop 4
        let attrs := r2.takeWhile (fun c => !(c == '>'))
        let r3 := r2.drop attrs.length
        if r3.head? == some '>' then
          match splitAtSubCI "</html>".data (r3.drop 1) with
          | some (mid, _) =>
            some (l.take (9 + ws.length + 4 + attrs.length + 1 + mid.length + 7))
          | none => none
        else none
      else none
  else none

/-- Matcher for `/<html[^>]*>[\s\S]*?<\/html>/i` at the current position
(fallback 1, line 808). -/
def tryHtmlTagAt (l : List Char) : Option (List Char) :=
  if listStartsWithBy eqCI "<html".data l then
    let r2 := l.drop 5
    let attrs := r2.takeWhile (fun c => !(c == '>'))
    let r3 := r2.drop attrs.length
    if r3.head? == some '>' then
      match splitAtSubCI "</html>".data (r3.drop 1) with
      | some (mid, _) => some (l.take (5 + attrs.length + 1 + mid.length + 7))
      | none => none
    else none
  else none

/-- Matcher for one `/<style[^>]*>([\s\S]*?)<\/style>/gi` match at the
current position, returning the capture and the rest after the match
(fallback 2, line 818). -/
def tryStyleAt (l : List Char) : Option (String × List Char) :=
  if listStartsWithBy eqCI "<style".data l then
    let r2 := l.drop 6
    let attrs := r2.takeWhile (fun c => !(c == '>'))
    let r3 := r2.drop attrs.length
    if r3.head? == some '>' then
      match splitAtSubCI "</style>".data (r3.drop 1) with
      | some (mid, rest) => some (String.mk mid, rest)
      | none => none
    else none
  else none

/-- `matchAll` scan for style tags: after a match continue after it, on
failure advance one character. -/
def styleMatchesF : Nat → List Char → List String
  | 0, _ => []
  | _, [] => []
  | f + 1, c :: cs =>
    match tryStyleAt (c :: cs) with
    | some (cap, restAfter) => cap :: styleMatchesF f restAfter
    | none => styleMatchesF f cs

/-- Embeds `parseGeneratedCode` (geminiService.js lines 724–844): tagged
blocks, untagged sniffing, raw-document fallback, style-tag extraction. -/
def parseGeneratedCode (content : String) : String × String :=
  if content == "" then ("", "")
  else
    let codeBlocks := scanCodeBlocks content
    let p1 := taggedPass codeBlocks "" ""
    let p2 := if p1.1 == "" || p1.2 == "" then untaggedPass codeBlocks p1.1 p1.2 else p1
    let h3 :=
      if p2.1 == "" then
        match findFirstSome tryDoctypeAt content.data with
        | some m => jsTrim (String.mk m)
        | none =>
          match findFirstSome tryHtmlTagAt content.data with
          | some m => jsTrim (String.mk m)
          | none => ""
      else p2.1
    let c3 :=
      if p2.2 == "" && !(h3 == "") then
        let extractedStyles :=
          ((styleMatchesF h3.length h3.data).filter (fun s => !(s == ""))).map jsTrim
        if extractedStyles.length > 0 then
          String.mk (joinWith "\n\n".data (extractedStyles.map String.data))
        else p2.2
      else p2.2
    (h3, c3)

/-- JS `String.prototype.replace` with a plain-string pattern: replace the
first occurrence.  (`$`-substitution in the replacement is not modelled; no
claim exercises a replacement containing dollar patterns.) -/
def replaceFirst (s pat repl : String) : String :=
  match splitAtSub pat.data s.data with
  | some (before, after) => String.mk before ++ repl ++ String.mk after
  | none => s

/-- Embeds `compileLivePreview` (geminiService.js lines 853–891). -/
def compileLivePreview (html css : String) : String :=
  if containsStr html "<!DOCTYPE" || containsStr html "<html" then
    if !(css == "") then
      if containsStr html "</head>" then
        replaceFirst html "</head>" ("<style>" ++ css ++ "</style></head>")
      else if containsStr html "<body" then
        replaceFirst html "<body" ("<style>" ++ css ++ "</style><body")
      else html
    else html
  else
    "<!DOCTYPE html>\n<html lang=\"en\">\n<head>\n  <meta charset=\"UTF-8\">\n  <meta name=\"viewport\" content=\"width=device-width, initial-scale=1.0\">\n  <title>DSY Core Preview</title>\n  <link href=\"https://fonts.googleapis.com/css2?family=Inter:wght@300;400;500;600;700&display=swap\" rel=\"stylesheet\">\n  <style>\n    * \x7b\n      margin: 0;\n      padding: 0;\n      box-sizing: border-box;\n    \x7d\n    body \x7b\n      font-family: \x27Inter\x27, sans-serif;\n    \x7d\n    " ++ css ++ "\n  </style>\n</head>\n<body>\n  " ++ html ++ "\n</body>\n</html>"

end GeminiService

/-! ## SambaNova service (src/unnamed/part_007) -/

namespace SambaNovaService

/-- Matcher for a case-insensitive tagged fence `/(fence)tag\s*([\s\S]*?)(fence)/i`
at the current position, returning the capture. -/
def tryFenceTagAt (tag : List Char) (l : List Char) : Option String :=
  if listStartsWithBy eqCI (fenceChars ++ tag) l then
    let r0 := l.drop (3 + tag.length)
    let r1 := r0.dropWhile isJsWs
    match splitAtSub fenceChars r1 with
    | some (body, _) => some (String.mk body)
    | none => none
  else none

/-- Opening-tag test of `/<(!DOCTYPE|html|head|body)/i` at the current
position. -/
def inlineHtmlTagOk (l : List Char) : Bool :=
  listStartsWithBy eqCI "<!DOCTYPE".data l || listStartsWithBy eqCI "<html".data l ||
  listStartsWithBy eqCI "<head".data l || listStartsWithBy eqCI "<body".data l

/-- Split at the LAST occurrence of `pat` (case-insensitive), via the first
occurrence of the reversed pattern in the reversed text. -/
def splitAtLastSubCI (pat l : List Char) : Option (List Char × List Char) :=
  match splitAtSubBy eqCI pat.reverse l.reverse with
  | some (revAfter, revBefore) => some (revBefore.reverse, revAfter.reverse)
  | none => none

/-- Matcher for `/<(!DOCTYPE|html|head|body)[\s\S]*<\/html>/i` at the current
position: the greedy star runs to the LAST closing tag. -/
def tryInlineHtmlAt (l : List Char) : Option (List Char) :=
  if inlineHtmlTagOk l then
    match splitAtLastSubCI "</html>".data l with
    | some (before, _) => some (l.take (before.length + 7))
    | none => none
  else none

/-- Embeds the SambaNova `parseGeneratedCode` (part_007 lines 260–285).
Unlike the Gemini parser, it has no tagged-block loop, no sniffing and no
length validation: one tagged-fence match per slot, then an inline-document
fallback (kept untrimmed, as in the source). -/
def parseGeneratedCode (content : String) : String × String :=
  let html :=
    match findFirstSome (tryFenceTagAt "html".data) content.data with
    | some b => jsTrim b
    | none => ""
  let css :=
    match findFirstSome (tryFenceTagAt "css".data) content.data with
    | some b => jsTrim b
    | none => ""
  if html == "" && css == "" then
    match findFirstSome tryInlineHtmlAt content.data with
    | some m => (String.mk m, css)
    | none => (html, css)
  else (html, css)

/-- Result record of the SambaNova page/chat calls (the `model`/`usage`
metadata fields are not modelled). -/
structure WebPageResult where
  success : Bool
  html : String
  css : String
  rawContent : String
  error : Option String := none
deriving Repr, BEq

/-- The message `callSambaNova` throws when no key is configured
(part_007 line 92). -/
def noKeyMsg : String :=
  "SambaNova API key not configured. Please set VITE_SAMBANOVA_API_KEY in your environment."

/-- Embeds `generateWebPage` (part_007 lines 212–253).  `configured` models
`SAMBANOVA_API_KEY` being non-empty; `outcome` is the provider call outcome
(`error` covers both the configuration throw inside `callSambaNova` and
non-2xx/network throws, all caught by the function's try/catch). -/
def generateWebPage (configured : Bool) (outcome : Except String String) : WebPageResult :=
  if !configured then
    { success := false, error := some noKeyMsg, html := "", css := "", rawContent := "" }
  else
    match outcome with
    | .ok content =>
      let parsed := parseGeneratedCode content
      { success := true, html := parsed.1, css := parsed.2, rawContent := content }
    | .error msg =>
      { success := false, error := some msg, html := "", css := "", rawContent := "" }

/-- Result record of the SambaNova chat-style calls. -/
structure ChatResult where
  success : Bool
  content : String
  error : Option String := none
deriving Repr, BEq

/-- Embeds `generateExplanation` (part_007 lines 125–157). -/
def generateExplanation (configured : Bool) (outcome : Except String String) : ChatResult :=
  if !configured then { success := false, content := "", error := some noKeyMsg }
  else
    match outcome with
    | .ok c => { success := true, content := c }
    | .error m => { success := false, content := "", error := some m }

/-- Embeds the SambaNova `generateCode` (part_007 lines 165–197). -/
def generateCode (configured : Bool) (outcome : Except String String) : ChatResult :=
  if !configured then { success := false, content := "", error := some noKeyMsg }
  else
    match outcome with
    | .ok c => { success := true, content := c }
    | .error m => { success := false, content := "", error := some m }

/-- Embeds `analyzeSyllabus` (part_007 lines 332–377). -/
def analyzeSyllabus (configured : Bool) (outcome : Except String String) : ChatResult :=
  if !configured then { success := false, content := "", error := some noKeyMsg }
  else
    match outcome with
    | .ok c => { success := true, content := c }
    | .error m => { success := false, content := "", error := some m }

/-- Embeds `analyzeBoxModel` (part_007 lines 385–435). -/
def analyzeBoxModel (configured : Bool) (outcome : Except String String) : ChatResult :=
  if !configured then { success := false, content := "", error := some noKeyMsg }
  else
    match outcome with
    | .ok c => { success := true, content := c }
    | .error m => { success := false, content := "", error := some m }

/-- Embeds the unified `chat` dispatcher (part_007 lines 444–456); the
`explanation` case is also the `default` of the switch. -/
def chat (configured : Bool) (outcome : Except String String) (_message : String)
    (taskType : String) : ChatResult :=
  if taskType == "code" then generateCode configured outcome
  else if taskType == "syllabus" then analyzeSyllabus configured outcome
  else if taskType == "boxmodel" then analyzeBoxModel configured outcome
  else generateExplanation configured outcome

end SambaNovaService

/-! ## Gemini generation and optimization (geminiService.js lines 279–610) -/

namespace GeminiService

/-- Strip every `/(fence)json?\s*/gi` occurrence (the first replace in
`parseOptimizationOutput`, line 443); the optional `n` is matched greedily. -/
def stripJsonFencesF : Nat → List Char → List Char
  | 0, l => l
  | _, [] => []
  | f + 1, c :: cs =>
    if listStartsWithBy eqCI (fenceChars ++ "json".data) (c :: cs) then
      stripJsonFencesF f (((c :: cs).drop 7).dropWhile isJsWs)
    else if listStartsWithBy eqCI (fenceChars ++ "jso".data) (c :: cs) then
      stripJsonFencesF f (((c :: cs).drop 6).dropWhile isJsWs)
    else c :: stripJsonFencesF f cs

/-- Strip the first replace's matches globally. -/
def stripJsonFences (s : String) : String := String.mk (stripJsonFencesF s.length s.data)

/-- Strip a trailing `/(fence)\s*$/` (the second replace, line 443): the
match is a closing fence followed only by whitespace up to the end. -/
def stripTrailingFence (s : String) : String :=
  let revNoWs := s.data.reverse.dropWhile isJsWs
  if listStartsWithBy eqCS fenceChars revNoWs then String.mk ((revNoWs.drop 3).reverse)
  else s

/-- The prefix of `l` up to and including its last right brace. -/
def cutAtLastRBrace (l : List Char) : Option (List Char) :=
  let revCut := l.reverse.dropWhile (fun c => !(c == rbrace))
  match revCut with
  | [] => none
  | _ => some revCut.reverse

/-- The literal `"layout"` (with quotes) of the fallback regex. -/
def layoutPat : List Char := '"' :: ("layout".data ++ ['"'])

/-- Leftmost match of the fallback regex (line 448): a left brace, then
greedily anything containing `"layout"`, ending at the last right brace. -/
def braceSpanFallback : List Char → Option (List Char)
  | [] => none
  | c :: rest =>
    if c == lbrace then
      match cutAtLastRBrace rest with
      | some p => if containsSub layoutPat p then some (c :: p) else braceSpanFallback rest
      | none => none
    else braceSpanFallback rest

/-- The fallback JSON extraction of `parseOptimizationOutput`
(lines 447–455). -/
def braceFallbackParse (rawOutput : String) : Option Json :=
  match braceSpanFallback rawOutput.data with
  | some span => jsonParse (String.mk span)
  | none => none

/-- Embeds `parseOptimizationOutput` (geminiService.js lines 427–460):
extract the `---TEXT---` capture (falling back to the whole raw output when
absent or empty) and the `---JSON---` capture parsed as JSON after stripping
incidental code fences, with the brace-span fallback on a parse error. -/
def parseOptimizationOutput (rawOutput : String) : String × Option Json :=
  let displayText :=
    match splitAtSubCI "---TEXT---".data rawOutput.data with
    | some (_, afterMarker) =>
      let body := afterMarker.dropWhile isJsWs
      let cap :=
        match splitAtSubCI "---JSON---".data body with
        | some (capChars, _) => String.mk capChars
        | none => String.mk body
      if cap == "" then rawOutput else jsTrim cap
    | none => rawOutput
  let designJSON :=
    match splitAtSubCI "---JSON---".data rawOutput.data with
    | some (_, afterMarker) =>
      let cap := String.mk (afterMarker.dropWhile isJsWs)
      if cap == "" then none
      else
        let jsonStr := jsTrim (stripTrailingFence (stripJsonFences (jsTrim cap)))
        match jsonParse jsonStr with
        | some j => some j
        | none => braceFallbackParse rawOutput
    | none => none
  (displayText, designJSON)

/-- Result record of `optimizePrompt`.  The success and failure returns of
the source build objects with different field sets; fields absent on one
path are modelled with `Option` defaults. -/
structure OptResult where
  success : Bool
  error : Option String := none
  optimizedPrompt : String
  designJSON : Option Json
  originalPrompt : String
  imagesAnalyzed : Option Nat := none
  rawOutput : String
deriving Repr, BEq

/-- The configuration error `optimizePrompt` and `generateWebPageWithImages`
throw when no key is available (lines 283 and 475). -/
def noKeysMsg : String :=
  "No Gemini API keys configured. Please set VITE_GEMINI_API_KEYS in your .env file."

/-- The failure return of `optimizePrompt` after exhaustion
(lines 412–419); `lastDisplayText || ""` equals `lastDisplayText` on
strings. -/
def optFailure (userPrompt lastDisplay lastRaw : String) : OptResult :=
  { success := false,
    error := some "Failed to extract design JSON after multiple attempts. Please try again.",
    optimizedPrompt := lastDisplay,
    designJSON := none,
    originalPrompt := userPrompt,
    rawOutput := lastRaw }

/-- The retry loop of `optimizePrompt` (lines 338–408).  `remaining` is the
number of attempts left out of `maxJsonRetries = 3`; `attempt` is the JS
loop counter (attempt 0 reuses the initially selected key, later attempts
select a fresh key excluding it, and a `none` selection is the loop's
`break`).  `lastError` is assigned in the catch branch but, as in the
source, does not appear in the exhaustion result. -/
def optimizeAttemptLoop (oracle : Nat → FetchOutcome) (rand : Nat → Nat) (apiKey : String)
    (userPrompt : String) (imagesCount : Nat) :
    Nat → Nat → PoolState → String → String → Option String → OptResult × PoolState
  | 0, _, st, lastDisplay, lastRaw, _ => (optFailure userPrompt lastDisplay lastRaw, st)
  | remaining + 1, attempt, st, lastDisplay, lastRaw, lastError =>
    let pick := if attempt == 0 then (some apiKey, st) else getRandomKey st (some apiKey) (rand attempt)
    match pick.1 with
    | none => (optFailure userPrompt lastDisplay lastRaw, pick.2)
    | some currentKey =>
      match oracle attempt with
      | .rateLimited =>
        optimizeAttemptLoop oracle rand apiKey userPrompt imagesCount remaining (attempt + 1)
          (markKeyFailed pick.2 currentKey) lastDisplay lastRaw lastError
      | .httpError msg =>
        optimizeAttemptLoop oracle rand apiKey userPrompt imagesCount remaining (attempt + 1)
          pick.2 lastDisplay lastRaw (some msg)
      | .ok rawOutput =>
        let parsed := parseOptimizationOutput rawOutput
        match parsed.2 with
        | none =>
          optimizeAttemptLoop oracle rand apiKey userPrompt imagesCount remaining (attempt + 1)
            pick.2 parsed.1 rawOutput lastError
        | some designJSON =>
          if !(optTruthy (designJSON.getField "layout")) ||
             !(optTruthy (designJSON.getField "colors")) then
            optimizeAttemptLoop oracle rand apiKey userPrompt imagesCount remaining (attempt + 1)
              pick.2 parsed.1 rawOutput lastError
          else
            ({ success := true,
               optimizedPrompt := parsed.1,
               designJSON := some designJSON,
               originalPrompt := userPrompt,
               imagesAnalyzed := some imagesCount,
               rawOutput := rawOutput }, pick.2)

/-- Embeds `optimizePrompt` (geminiService.js lines 279–420).  The initial
`getRandomKey()` failing (which happens exactly when zero keys are
configured) is the JS `throw`, modelled as `Except.error`. -/
def optimizePrompt (st : PoolState) (oracle : Nat → FetchOutcome) (rand : Nat → Nat)
    (userPrompt : String) (assets : List Asset) : Except String (OptResult × PoolState) :=
  let pick := getRandomKey st none (rand 0)
  match pick.1 with
  | none => .error noKeysMsg
  | some apiKey =>
    let imageAssets := assets.filter (fun a => a.type == "image")
    .ok (optimizeAttemptLoop oracle rand apiKey userPrompt imageAssets.length 3 0 pick.2 "" "" none)

/-- Result record of `generateWebPageWithImages`. -/
structure GenResult where
  success : Bool
  html : String
  css : String
  rawContent : String
  error : Option String := none
  usedImages : Nat := 0
  usedJSON : Bool := false
deriving Repr, BEq

/-- The failure return of `generateWebPageWithImages` after exhaustion
(lines 603–609). -/
def genFailure (lastError : Option String) : GenResult :=
  { success := false,
    error := some (lastError.getD "All API keys exhausted"),
    html := "", css := "", rawContent := "" }

/-- The retry loop of `generateWebPageWithImages` (lines 533–600):
per-attempt key selection (attempt 0 reuses the initial key), rate-limit
marking, and the flat-mode validation gate `html.length >= 100` and
`css.length >= 50` before a success return. -/
def generateAttemptLoop (oracle : Nat → FetchOutcome) (rand : Nat → Nat) (apiKey : String)
    (imagesCount : Nat) (usedJSON : Bool) :
    Nat → Nat → PoolState → Option String → GenResult × PoolState
  | 0, _, st, lastError => (genFailure lastError, st)
  | remaining + 1, attempt, st, lastError =>
    let pick := if attempt == 0 then (some apiKey, st) else getRandomKey st (some apiKey) (rand attempt)
    match pick.1 with
    | none => (genFailure lastError, pick.2)
    | some currentKey =>
      match oracle attempt with
      | .rateLimited =>
        generateAttemptLoop oracle rand apiKey imagesCount usedJSON remaining (attempt + 1)
          (markKeyFailed pick.2 currentKey) lastError
      | .httpError msg =>
        generateAttemptLoop oracle rand apiKey imagesCount usedJSON remaining (attempt + 1)
          pick.2 (some msg)
      | .ok content =>
        let parsed := parseGeneratedCode content
        if parsed.1 == "" || parsed.1.length < 100 then
          generateAttemptLoop oracle rand apiKey imagesCount usedJSON remaining (attempt + 1)
            pick.2 lastError
        else if parsed.2 == "" || parsed.2.length < 50 then
          generateAttemptLoop oracle rand apiKey imagesCount usedJSON remaining (attempt + 1)
            pick.2 lastError
        else
          ({ success := true,
             html := parsed.1,
             css := parsed.2,
             rawContent := content,
             usedImages := imagesCount,
             usedJSON := usedJSON }, pick.2)

/-- Embeds `generateWebPageWithImages` (geminiService.js lines 471–610).
`maxAttempts = min(3, GEMINI_API_KEYS.length)`; the initial selection
failing (exactly when zero keys are configured) is the JS `throw`. -/
def generateWebPageWithImages (st : PoolState) (oracle : Nat → FetchOutcome)
    (rand : Nat → Nat) (_prompt : String) (assets : List Asset) (designJSON : Option Json)
    (excludeKey : Option String) : Except String (GenResult × PoolState) :=
  let pick := getRandomKey st excludeKey (rand 0)
  match pick.1 with
  | none => .error noKeysMsg
  | some apiKey =>
    let imageAssets := assets.filter (fun a => a.type == "image")
    let maxAttempts := min 3 pick.2.keys.length
    .ok (generateAttemptLoop oracle rand apiKey imageAssets.length designJSON.isSome
      maxAttempts 0 pick.2 none)

end GeminiService

/-! ## HuggingFace preprocessor (src/unnamed/part_006 lines 334–456) -/

namespace HfPreprocessorService

/-- Embeds `preprocessImage` (part_006 lines 370–417).  The remote Space
call is an oracle: `ok` carries the parsed response-object fields spread
after `success: true`; the catch branch returns the documented default
colors and layout.  The function never throws — its whole body is inside a
try/catch. -/
def preprocessImage (outcome : Except String (List (String × Json))) : Json :=
  match outcome with
  | .ok dataFields => Json.obj (("success", Json.bool true) :: dataFields)
  | .error msg =>
    Json.obj
      [("success", Json.bool false),
       ("error", Json.str msg),
       ("colors", Json.obj
         [("primary", Json.str "#3b82f6"), ("secondary", Json.str "#1e40af"),
          ("accent", Json.str "#60a5fa"), ("background", Json.str "#1e1e2e"),
          ("text", Json.str "#ffffff"), ("is_dark_theme", Json.bool true)]),
       ("layout", Json.obj
         [("type", Json.str "landing"),
          ("sections", Json.arr [Json.str "navbar", Json.str "hero",
            Json.str "features", Json.str "footer"]),
          ("estimated_columns", Json.num 3)])]

/-- JS `x || d` on a possibly-undefined value. -/
def jsOr (v : Option Json) (dflt : Json) : Json :=
  match v with
  | some j => if j.truthy then j else dflt
  | none => dflt

/-- Embeds `buildDesignJSON` (part_006 lines 425–448).  Optional chaining
`a?.b` is `Option.bind` composed with `Json.getField`. -/
def buildDesignJSON (hfData : Option Json) : Option Json :=
  match hfData with
  | none => none
  | some h =>
    if !h.truthy then none
    else
      let hLayout := h.getField "layout"
      let hColors := h.getField "colors"
      let isDark := hColors.bind (fun c => c.getField "is_dark_theme")
      some (Json.obj
        [("layout", Json.obj
          [("type", jsOr (hLayout.bind (fun l => l.getField "type")) (Json.str "landing")),
           ("sections", jsOr (hLayout.bind (fun l => l.getField "sections"))
             (Json.arr [Json.str "header", Json.str "hero", Json.str "features",
               Json.str "footer"])),
           ("columns", jsOr (hLayout.bind (fun l => l.getField "estimated_columns"))
             (Json.num 3))]),
         ("colors", Json.obj
          [("background", jsOr (hColors.bind (fun c => c.getField "background"))
             (Json.str "#1e1e2e")),
           ("primary", jsOr (hColors.bind (fun c => c.getField "primary"))
             (Json.str "#3b82f6")),
           ("secondary", jsOr (hColors.bind (fun c => c.getField "secondary"))
             (Json.str "#1e40af")),
           ("accent", jsOr (hColors.bind (fun c => c.getField "accent"))
             (Json.str "#60a5fa")),
           ("text", jsOr (hColors.bind (fun c => c.getField "text"))
             (Json.str "#ffffff"))]),
         ("effects", if optTruthy isDark then
             Json.arr [Json.str "glassmorphism", Json.str "gradient", Json.str "shadows"]
           else Json.arr [Json.str "shadows", Json.str "subtle-gradient"]),
         ("isDarkTheme", match isDark with
           | some Json.null => Json.bool true
           | some v => v
           | none => Json.bool true)])

end HfPreprocessorService

/-! ## Generation Router (geminiService.js lines 954–1199,
`codeGeneratorRouter`) -/

namespace CodeGeneratorRouter

/-- Which external collaborator a router run invoked — the "stub provider
recording which was called" of spec §8.7, realized as a call trace. -/
inductive CallEvent where
  | preprocess : CallEvent
  | geminiGenerate : CallEvent
  | sambaGenerate : CallEvent
deriving Repr, DecidableEq

/-- One generated file of the multi-file (react) mode. -/
structure GenFile where
  name : String
  content : String
  language : String
deriving Repr, BEq, DecidableEq

/-- The environment of one router run: the response oracles of the three
external collaborators plus the randomness oracle. -/
structure Env where
  geminiOracle : Nat → FetchOutcome
  rand : Nat → Nat
  sambaConfigured : Bool
  sambaOutcome : Except String String
  hfOutcome : Except String (List (String × Json))

/-- The router's result record; fields that only some paths set are
modelled with `Option` defaults. -/
structure RouteResult where
  success : Bool
  error : Option String := none
  html : String := ""
  css : String := ""
  rawContent : String := ""
  files : List GenFile := []
  pipeline : String
  framework : String
  usedHF : Option Bool := none
  usedImages : Option Nat := none
  usedJSON : Option Bool := none
  geminiCalls : Option Nat := none
  fallback : Option Bool := none
deriving Repr, BEq

/-- Language tag inferred from a file extension (spec §4.3 step 6). -/
def languageOfExt (name : String) : String :=
  if listEndsWith ".tsx".data name.data || listEndsWith ".ts".data name.data then "typescript"
  else if listEndsWith ".css".data name.data then "css"
  else if listEndsWith ".jsx".data name.data || listEndsWith ".js".data name.data then "javascript"
  else "text"

/-- Modelled from the spec: `parseReactOutput` is imported by the router
from the SambaNova service module, but the copy of that module in the
repository snapshot does not define it.  Spec §4.3 step 6 and §6: scan for
the file-marker convention `---FILE: <path>---` ... (up to the next marker
or the `---END---` marker) and emit the ordered list of files, inferring a
language tag from the extension.  Text with no `---FILE` marker yields no
files. -/
def parseReactChunksF : Nat → List Char → List GenFile
  | 0, _ => []
  | f + 1, l =>
    match splitAtSub "---FILE:".data l with
    | none => []
    | some (_, afterMarker) =>
      match splitAtSub "---".data afterMarker with
      | none => []
      | some (nameRaw, afterName) =>
        let name := jsTrim (String.mk nameRaw)
        let bodyLen :=
          match splitAtSub "---FILE:".data afterName, splitAtSub "---END---".data afterName with
          | some (b1, _), some (b2, _) => min b1.length b2.length
          | some (b1, _), none => b1.length
          | none, some (b2, _) => b2.length
          | none, none => afterName.length
        let body := String.mk (afterName.take bodyLen)
        let rest := afterName.drop bodyLen
        let file : GenFile := ⟨name, jsTrim body, languageOfExt name⟩
        if listStartsWithBy eqCS "---END---".data rest then [file]
        else file :: parseReactChunksF f rest

/-- Modelled from the spec (see `parseReactChunksF`): the multi-file
extraction entry point. -/
def parseReactOutput (content : String) : List GenFile :=
  parseReactChunksF content.length content.data

/-- Matcher of one alternative of the the global replace
`/<!DOCTYPE.*?>|<html.*?>|<\/html>|<head>[\s\S]*?<\/head>|<body.*?>|<\/body>/gi`
(line 1160): `.` does not cross line ends.  The literal prefixes of the
alternatives are pairwise non-overlapping, so a first-match if-chain is
faithful to the regex alternation. -/
def tryLazyToGt (l : List Char) : Option (List Char) :=
  match splitAtSub ['>'] l with
  | some (before, after) =>
    if before.any (fun c => c == '\n' || c == '\r') then none else some after
  | none => none

/-- One attempted match of the document-structure strip at the current
position, returning the remainder after the matched piece. -/
def tryStripAt (l : List Char) : Option (List Char) :=
  if listStartsWithBy eqCI "<!DOCTYPE".data l then tryLazyToGt (l.drop 9)
  else if listStartsWithBy eqCI "</html>".data l then some (l.drop 7)
  else if listStartsWithBy eqCI "<html".data l then tryLazyToGt (l.drop 5)
  else if listStartsWithBy eqCI "<head>".data l then
    match splitAtSubCI "</head>".data (l.drop 6) with
    | some (_, rest) => some rest
    | none => none
  else if listStartsWithBy eqCI "</body>".data l then some (l.drop 7)
  else if listStartsWithBy eqCI "<body".data l then tryLazyToGt (l.drop 5)
  else none

/-- The global document-structure strip applied to the recovered HTML
before wrapping it in the React fallback component (line 1160). -/
def stripDocStructureF : Nat → List Char → List Char
  | 0, l => l
  | _, [] => []
  | f + 1, c :: cs =>
    match tryStripAt (c :: cs) with
    | some rest => stripDocStructureF f rest
    | none => c :: stripDocStructureF f cs

/-- String entry point of the document-structure strip. -/
def stripDocStructure (s : String) : String := String.mk (stripDocStructureF s.length s.data)

/-- The synthesized `App.tsx` body (lines 1154–1168): the stripped HTML,
each line indented by six spaces, spliced into the component template. -/
def appTsxContent (html : String) : String :=
  let stripped := stripDocStructure html
  let indented :=
    String.mk (joinWith ['\n'] ((splitLines stripped.data).map (fun line => "      ".data ++ line)))
  "import React from \x27react\x27;\nimport \x27./index.css\x27;\n\nconst App: React.FC = () => \x7b\n  return (\n    <>\n"
    ++ indented
    ++ "\n    </>\n  );\n\x7d;\n\nexport default App;"

/-- The synthesized single-component wrapper file set of the multi-file
fallback (lines 1151–1176). -/
def fallbackWrapperFiles (html css : String) : List GenFile :=
  [⟨"App.tsx", appTsxContent html, "typescript"⟩,
   ⟨"index.css", if !(css == "") then css else "/* Add your styles here */", "css"⟩]

/-- Result record of the spec-modelled SambaNova react generation. -/
structure ReactGenOut where
  success : Bool
  error : Option String := none
  files : List GenFile := []
  rawContent : String := ""
deriving Repr, BEq

/-- Modelled from the spec: `generateReactApp` is imported by the router
from the SambaNova service module, but the copy of that module in the
repository snapshot does not define it.  Spec §4.5: request the file-marker
format from the fast text provider, run the multi-file extraction, and on
zero files fall back to flat parsing and a synthesized single-component
wrapper rather than failing outright. -/
def generateReactApp (configured : Bool) (outcome : Except String String) : ReactGenOut :=
  if !configured then { success := false, error := some SambaNovaService.noKeyMsg }
  else
    match outcome with
    | .error msg => { success := false, error := some msg }
    | .ok content =>
      let files := parseReactOutput content
      if files.length > 0 then { success := true, files := files, rawContent := content }
      else
        let parsed := SambaNovaService.parseGeneratedCode content
        if !(parsed.1 == "") || !(parsed.2 == "") then
          { success := true, files := fallbackWrapperFiles parsed.1 parsed.2,
            rawContent := content }
        else { success := false, error := some "Failed to parse generated code",
               rawContent := content }

/-- Embeds `generateReactWithGemini` (geminiService.js lines 1071–1197):
one Gemini call, multi-file extraction, and the flat HTML/CSS fallback
wrapped into a synthetic component when no file markers were produced. -/
def generateReactWithGemini (st : PoolState) (env : Env) (prompt : String)
    (assets : List Asset) (designJSON : Option Json) :
    Except String (RouteResult × PoolState) :=
  match GeminiService.generateWebPageWithImages st env.geminiOracle env.rand prompt assets
      designJSON none with
  | .error e => .error e
  | .ok (result, st1) =>
    if !result.success then
      .ok ({ success := false, error := result.error, files := [], pipeline := "gemini",
             framework := "react" }, st1)
    else
      let files := parseReactOutput result.rawContent
      if files.length > 0 then
        .ok ({ success := true, files := files, rawContent := result.rawContent,
               pipeline := "gemini", framework := "react",
               usedHF := some designJSON.isSome, geminiCalls := some 1 }, st1)
      else
        let parsed := GeminiService.parseGeneratedCode result.rawContent
        if !(parsed.1 == "") || !(parsed.2 == "") then
          .ok ({ success := true, files := fallbackWrapperFiles parsed.1 parsed.2,
                 rawContent := result.rawContent, pipeline := "gemini", framework := "react",
                 usedHF := some designJSON.isSome, geminiCalls := some 1,
                 fallback := some true }, st1)
        else
          .ok ({ success := false, error := some "Failed to parse generated code",
                 files := [], pipeline := "gemini", framework := "react" }, st1)

/-- Embeds `generateTextOnly` (lines 1000–1018): the SambaNova pipeline,
spread into the router result shape. -/
def generateTextOnly (st : PoolState) (env : Env) (_prompt : String) (framework : String) :
    (Except String (RouteResult × PoolState)) × List CallEvent :=
  if framework == "react" then
    let r := generateReactApp env.sambaConfigured env.sambaOutcome
    (.ok ({ success := r.success, error := r.error, files := r.files,
            rawContent := r.rawContent, pipeline := "sambanova", framework := "react" }, st),
     [CallEvent.sambaGenerate])
  else
    let r := SambaNovaService.generateWebPage env.sambaConfigured env.sambaOutcome
    (.ok ({ success := r.success, error := r.error, html := r.html, css := r.css,
            rawContent := r.rawContent, pipeline := "sambanova", framework := "html" }, st),
     [CallEvent.sambaGenerate])

/-- JS truthiness of `imageAsset?.data`. -/
def dataTruthy (d : Option String) : Bool :=
  match d with
  | some s => !(s == "")
  | none => false

/-- The preprocessing guard of `generateWithImage` (line 1034): the first
image-kind asset is looked up and the step runs only when its `data` field
is truthy (`if (imageAsset?.data)`). -/
def preprocessAttempted (assets : List Asset) : Bool :=
  match assets.find? (fun a => a.type == "image") with
  | some a => dataTruthy a.data
  | none => false

/-- Embeds `generateWithImage` (lines 1027–1061): the preprocessing step is
guarded by `imageAsset?.data` (see `preprocessAttempted`); `preprocessImage`
itself never rejects (its body is wrapped in its own try/catch), so the
router's catch branch is unreachable and `designJSON` is `buildDesignJSON`
of its outcome whenever the guard passes. -/
def generateWithImage (st : PoolState) (env : Env) (prompt : String) (assets : List Asset)
    (framework : String) : (Except String (RouteResult × PoolState)) × List CallEvent :=
  let attempted := preprocessAttempted assets
  let designJSON : Option Json :=
    if attempted then
      HfPreprocessorService.buildDesignJSON
        (some (HfPreprocessorService.preprocessImage env.hfOutcome))
    else none
  let preEvents := if attempted then [CallEvent.preprocess] else []
  if framework == "react" then
    (generateReactWithGemini st env prompt assets designJSON,
     preEvents ++ [CallEvent.geminiGenerate])
  else
    match GeminiService.generateWebPageWithImages st env.geminiOracle env.rand prompt assets
        designJSON none with
    | .error e => (.error e, preEvents ++ [CallEvent.geminiGenerate])
    | .ok (r, st1) =>
      (.ok ({ success := r.success, error := r.error, html := r.html, css := r.css,
              rawContent := r.rawContent, pipeline := "gemini", framework := "html",
              usedHF := some designJSON.isSome, usedImages := some r.usedImages,
              usedJSON := some r.usedJSON }, st1),
       preEvents ++ [CallEvent.geminiGenerate])

/-- Embeds the router `generateCode` (lines 976–993): route by image
presence. -/
def generateCode (st : PoolState) (env : Env) (prompt : String) (assets : List Asset)
    (framework : String) : (Except String (RouteResult × PoolState)) × List CallEvent :=
  let hasImages := assets.any (fun a => a.type == "image")
  if hasImages then generateWithImage st env prompt assets framework
  else generateTextOnly st env prompt framework

end CodeGeneratorRouter

/-! ## Specification-side functions and concrete instances -/

/-- The first html- or css-tagged block with a non-empty trimmed body, or
the empty string: the value the tagged classification loop actually
computes for a slot. -/
def firstGoodTag (bs : List CodeBlock) (tag : String) : String :=
  match bs.find? (fun b => b.language == tag && !(jsTrim b.content == "")) with
  | some b => jsTrim b.content
  | none => ""

/-- The salvage accumulator of the Prompt Optimizer, stated independently of
the loop: over attempts `i, i+1, ...` (`n` of them), the display text
extracted from the most recent attempt with a 2xx response, together with
that attempt's raw output. -/
def lastSalvage (oracle : Nat → FetchOutcome) : Nat → Nat → String → String → String × String
  | 0, _, d, rw => (d, rw)
  | n + 1, i, d, rw =>
    match oracle i with
    | .ok body => lastSalvage oracle n (i + 1) (GeminiService.parseOptimizationOutput body).1 body
    | _ => lastSalvage oracle n (i + 1) d rw

/-- A placeholder router result used by total extractors below. -/
def emptyRouteResult : CodeGeneratorRouter.RouteResult :=
  { success := false, pipeline := "", framework := "" }

/-- A short SambaNova response: well-formed fenced blocks whose recovered
HTML (9 chars) and CSS (14 chars) are far below the flat-mode floors. -/
def sambaShortContent : String :=
  "```html\n<p>hi</p>\n```\n```css\nbody\x7bcolor:red\x7d\n```"

/-- Router environment for the short-SambaNova run. -/
def c1Env : CodeGeneratorRouter.Env :=
  ⟨fun _ => FetchOutcome.ok "", fun _ => 0, true, Except.ok sambaShortContent, Except.error "unused"⟩

/-- The flat-mode text-only router run on the short response. -/
def c1Run : (Except String (CodeGeneratorRouter.RouteResult × PoolState)) × List CodeGeneratorRouter.CallEvent :=
  CodeGeneratorRouter.generateCode ⟨["g1"], []⟩ c1Env "dark portfolio hero section" [] "html"

/-- The result record of the short-SambaNova run. -/
def c1Out : CodeGeneratorRouter.RouteResult :=
  match c1Run.1 with
  | .ok (out, _) => out
  | .error _ => emptyRouteResult

/-- A Gemini response whose HTML block is 100+ characters and CSS block is
50+ characters, so the validation gate passes. -/
def geminiGoodContent : String :=
  "```html\n<!DOCTYPE html>\n<html lang=\"en\">\n<head>\n<title>Demo page</title>\n</head>\n<body>\n<h1>Hello hero section</h1>\n<p>Welcome to the generated landing page.</p>\n</body>\n</html>\n```\n```css\nbody \x7b background: #1e1e2e; color: #ffffff; margin: 0; \x7d\nh1 \x7b font-size: 48px; \x7d\n```"

/-- Oracle returning the good Gemini response on every attempt. -/
def goodGeminiOracle : Nat → FetchOutcome := fun _ => FetchOutcome.ok geminiGoodContent

/-- A one-key pool. -/
def oneKeyPool : PoolState := ⟨["g1"], []⟩

/-- The Gemini flat generation run on the good response. -/
def c1GemRun : Except String (GeminiService.GenResult × PoolState) :=
  GeminiService.generateWebPageWithImages oneKeyPool goodGeminiOracle (fun _ => 0)
    "prompt" [] none none

/-- The result record of the good Gemini run. -/
def c1GemOut : GeminiService.GenResult :=
  match c1GemRun with
  | .ok (r, _) => r
  | .error _ => { success := false, html := "", css := "", rawContent := "" }

/-- The pool state after the good Gemini run. -/
def c1GemSt : PoolState :=
  match c1GemRun with
  | .ok (_, st) => st
  | .error _ => oneKeyPool

/-- An optimizer response with both sections and a valid design JSON. -/
def optGoodRaw : String :=
  "---TEXT---\nA dark landing page with a hero section.\n---JSON---\n\x7b\"layout\": \x7b\"type\": \"landing\", \"sections\": [\"hero\"], \"columns\": 1\x7d, \"colors\": \x7b\"background\": \"#1e1e2e\", \"primary\": \"#3b82f6\"\x7d\x7d"

/-- Oracle returning the good optimizer response. -/
def goodOptOracle : Nat → FetchOutcome := fun _ => FetchOutcome.ok optGoodRaw

/-- The optimizer run on the good response. -/
def c2Run : Except String (GeminiService.OptResult × PoolState) :=
  GeminiService.optimizePrompt oneKeyPool goodOptOracle (fun _ => 0) "make a page" []

/-- The result record of the good optimizer run. -/
def c2Out : GeminiService.OptResult :=
  match c2Run with
  | .ok (r, _) => r
  | .error _ =>
    { success := false, optimizedPrompt := "", designJSON := none,
      originalPrompt := "", rawOutput := "" }

/-- The pool state after the good optimizer run. -/
def c2St : PoolState :=
  match c2Run with
  | .ok (_, st) => st
  | .error _ => oneKeyPool

/-- An optimizer response with readable text but a JSON section that parses
to an object missing `colors`: extraction is rejected by the validation
step on every attempt. -/
def optBadRaw : String :=
  "---TEXT---\nhello\n---JSON---\n\x7b\"layout\": \x7b\"type\": \"landing\"\x7d\x7d"

/-- Oracle returning the invalid optimizer response on every attempt. -/
def badOptOracle : Nat → FetchOutcome := fun _ => FetchOutcome.ok optBadRaw

/-- The failing optimizer run. -/
def c7Run : Except String (GeminiService.OptResult × PoolState) :=
  GeminiService.optimizePrompt oneKeyPool badOptOracle (fun _ => 0) "make a page" []

/-- The result record of the failing optimizer run. -/
def c7Out : GeminiService.OptResult :=
  match c7Run with
  | .ok (r, _) => r
  | .error _ =>
    { success := true, optimizedPrompt := "", designJSON := none,
      originalPrompt := "", rawOutput := "" }

/-- The pool state after the failing optimizer run. -/
def c7St : PoolState :=
  match c7Run with
  | .ok (_, st) => st
  | .error _ => oneKeyPool

/-- Two oracles that agree on attempts 0–2 and differ from attempt 3 on. -/
def c7OracleA : Nat → FetchOutcome := fun i =>
  if i < 3 then FetchOutcome.httpError "boom" else FetchOutcome.ok "A"

/-- The second of the agreeing oracle pair. -/
def c7OracleB : Nat → FetchOutcome := fun i =>
  if i < 3 then FetchOutcome.httpError "boom" else FetchOutcome.ok "B"

/-- An image asset whose `data` field is absent. -/
def imageAssetNoData : Asset := { type := "image" }

/-- An image asset with a data-URI payload. -/
def imageAssetWithData : Asset := { type := "image", data := some "data:image/png;base64,AAAA" }

/-- Router environment for the routing runs: a good Gemini oracle and a good
SambaNova outcome, and a failing preprocessor outcome (which the
preprocessor absorbs into its defaults). -/
def c4Env : CodeGeneratorRouter.Env :=
  ⟨goodGeminiOracle, fun _ => 0, true, Except.ok sambaShortContent, Except.error "hf down"⟩

/-- The react-mode Gemini generation on the good (marker-free) response. -/
def c5Inner : Except String (GeminiService.GenResult × PoolState) :=
  GeminiService.generateWebPageWithImages oneKeyPool c4Env.geminiOracle c4Env.rand
    "prompt" [] none none

/-- The result record of the react-mode inner generation. -/
def c5R : GeminiService.GenResult :=
  match c5Inner with
  | .ok (r, _) => r
  | .error _ => { success := false, html := "", css := "", rawContent := "" }

/-- The pool state after the react-mode inner generation. -/
def c5St1 : PoolState :=
  match c5Inner with
  | .ok (_, st) => st
  | .error _ => oneKeyPool

/-- Content whose first html-tagged block trims to the empty string and is
therefore overwritten by a later html-tagged block. -/
def c9Content : String :=
  "```html\n \n```\n```html\n<p>hello</p>\n```\n```css\na\x7bcolor:red\x7d\n```"

/-- Content with one html-tagged and one css-tagged block, both with
non-empty trimmed bodies, plus later duplicate blocks. -/
def c9GoodContent : String :=
  "Intro prose.\n```html\n<p>first</p>\n```\n```css\n.a\x7bcolor:red\x7d\n```\n```html\n<p>second</p>\n```\n```css\n.b\x7bcolor:blue\x7d\n```"

/-- A full HTML document with no head-close and no body tag. -/
def c10Html : String := "<html><main><p>content</p></main></html>"

/-! ## Theorems -/

theorem get?_mod_isSome {α : Type} (l : List α) (r : Nat) (h : l ≠ []) :
    (l.get? (r % l.length)).isSome := by
  have hlen : 0 < l.length := List.length_pos.mpr h
  have hlt : r % l.length < l.length := Nat.mod_lt _ hlen
  rw [List.get?_eq_get hlt]
  rfl

theorem getRandomKey_some_of_keys_ne_nil (st : PoolState) (ex : Option String)
    (r : Nat) (h : st.keys ≠ []) : ((getRandomKey st ex r).1).isSome := by
  unfold getRandomKey
  have h0 : (st.keys.length == 0) = false := by
    simp only [beq_iff_eq, beq_eq_false_iff_ne, ne_eq, List.length_eq_zero]
    exact h
  simp only [h0, Bool.false_eq_true, if_false]
  by_cases ha : (st.keys.filter
      (fun k => !(st.failed.contains k) && !(some k == ex))).length == 0
  · simp only [ha, if_true]
    by_cases hb : (st.keys.filter (fun k => !(some k == ex))).length == 0
    · simp only [hb, if_true]
      cases hk : st.keys with
      | nil => exact absurd hk h
      | cons a l => simp [hk]
    · simp only [hb, Bool.false_eq_true, if_false]
      apply get?_mod_isSome
      intro hnil
      rw [hnil] at hb
      simp at hb
  · simp only [ha, Bool.false_eq_true, if_false]
    apply get?_mod_isSome
    intro hnil
    rw [hnil] at ha
    simp at ha

theorem getRandomKey_keys_eq (st : PoolState) (ex : Option String) (r : Nat) :
    (getRandomKey st ex r).2.keys = st.keys := by
  simp only [getRandomKey]
  split
  · rfl
  · split
    · split <;> rfl
    · rfl

theorem markKeyFailed_keys_eq (st : PoolState) (k : String) :
    (markKeyFailed st k).keys = st.keys := by
  unfold markKeyFailed
  split <;> rfl

theorem getRandomKey_none_iff (st : PoolState) (ex : Option String) (r : Nat) :
    (getRandomKey st ex r).1 = none ↔ st.keys = [] := by
  constructor
  · intro h
    by_contra hne
    have hs := getRandomKey_some_of_keys_ne_nil st ex r hne
    rw [h] at hs
    simp at hs
  · intro h
    unfold getRandomKey
    simp [h]

/-- C3 (counterexample): at a pool holding exactly the excluded credential,
the candidate set and the pool minus the excluded credential are both
empty, yet `getRandomKey` returns the excluded credential (the source's
`return GEMINI_API_KEYS[0]`, line 38) instead of the `none` the claim
states. -/
theorem getRandomKey_only_excluded_counterexample :
    (PoolState.mk ["k1"] []).keys.filter
        (fun k => !((PoolState.mk ["k1"] []).failed.contains k) && !(some k == some "k1")) = [] ∧
    (PoolState.mk ["k1"] []).keys.filter (fun k => !(some k == some "k1")) = [] ∧
    (getRandomKey (PoolState.mk ["k1"] []) (some "k1") 0).1 = some "k1" :=
  ⟨by decide, by decide, by decide⟩

/-- C3 (amended): credential selection returns `none` exactly when the pool
is empty; when the pool consists of only the excluded credential it returns
the pool's first key — the excluded credential — instead of `none`. -/
theorem getRandomKey_none_iff_no_keys (st : PoolState) (ex : Option String) (r : Nat) :
    (getRandomKey st ex r).1 = none ↔ st.keys = [] :=
  getRandomKey_none_iff st ex r

/-- C3 (amended, witness): the empty pool yields `none`. -/
theorem getRandomKey_none_iff_no_keys_witness :
    (getRandomKey (PoolState.mk [] []) (some "k1") 0).1 = none :=
  (getRandomKey_none_iff_no_keys (PoolState.mk [] []) (some "k1") 0).mpr rfl

/-- C8: whenever the pool contains a credential other than `x`, selection
excluding `x` never returns `x` — on the normal path and on the
reset-and-retry path alike. -/
theorem getRandomKey_never_returns_excluded (keys failed : List String) (x : String) (r : Nat)
    (h : ∃ k, k ∈ keys ∧ k ≠ x) :
    ∀ k, (getRandomKey ⟨keys, failed⟩ (some x) r).1 = some k → k ≠ x := by
  intro k hk hkx
  obtain ⟨k0, hk0, hk0x⟩ := h
  rw [hkx] at hk
  revert hk
  simp only [getRandomKey]
  split
  · intro hk; simp at hk
  · split
    · split
      · rename_i hreset
        intro _
        have hmem : k0 ∈ List.filter (fun k2 => !(some k2 == some x)) keys :=
          List.mem_filter.mpr ⟨hk0, by simpa using hk0x⟩
        have hnil : List.filter (fun k2 => !(some k2 == some x)) keys = [] :=
          List.length_eq_zero.mp (by simpa using hreset)
        rw [hnil] at hmem
        simp at hmem
      · intro hk
        have hmem := List.get?_mem (by simpa using hk)
        have hpred := (List.mem_filter.mp hmem).2
        simp at hpred
    · intro hk
      have hmem := List.get?_mem (by simpa using hk)
      have hpred := (List.mem_filter.mp hmem).2
      simp at hpred

/-- C8 (witness): pool `["a", "b"]` with `"b"` marked failed and `"a"`
excluded exercises the reset path and still avoids the excluded
credential. -/
theorem getRandomKey_never_returns_excluded_witness :
    (getRandomKey ⟨["a", "b"], ["b"]⟩ (some "a") 0).1 = some "b" ∧ "b" ≠ "a" :=
  ⟨by decide,
   getRandomKey_never_returns_excluded ["a", "b"] ["b"] "a" 0
     ⟨"b", by decide, by decide⟩ "b" (by decide)⟩

/-- C10: when the HTML already looks like a full document (contains
`<!DOCTYPE` or `<html`) but has neither a `</head>` close nor a `<body`
tag, `compileLivePreview` returns the HTML unchanged and the CSS argument
is silently discarded. -/
theorem compileLivePreview_no_injection_point (html css : String)
    (hdoc : containsStr html "<!DOCTYPE" = true ∨ containsStr html "<html" = true)
    (hhead : containsStr html "</head>" = false)
    (hbody : containsStr html "<body" = false) :
    GeminiService.compileLivePreview html css = html := by
  have h1 : (containsStr html "<!DOCTYPE" || containsStr html "<html") = true := by
    rcases hdoc with h | h <;> simp [h]
  simp only [GeminiService.compileLivePreview, h1, hhead, hbody, if_true,
    Bool.false_eq_true, if_false]
  split <;> rfl

/-- C10 (witness): a document with `<html>` but no head close and no body
tag passes through unchanged even with a non-empty CSS argument. -/
theorem compileLivePreview_no_injection_point_witness :
    GeminiService.compileLivePreview c10Html "a\x7bcolor:red\x7d" = c10Html :=
  compileLivePreview_no_injection_point c10Html "a\x7bcolor:red\x7d"
    (Or.inr (by decide)) (by decide) (by decide)

theorem generateAttemptLoop_success_invariant (oracle : Nat → FetchOutcome) (rand : Nat → Nat)
    (apiKey : String) (ic : Nat) (uj : Bool) :
    ∀ rem att st le r st1,
      GeminiService.generateAttemptLoop oracle rand apiKey ic uj rem att st le = (r, st1) →
      r.success = true →
      r.html = (GeminiService.parseGeneratedCode r.rawContent).1 ∧
      r.css = (GeminiService.parseGeneratedCode r.rawContent).2 ∧
      100 ≤ r.html.length ∧ 50 ≤ r.css.length := by
  intro rem
  induction rem with
  | zero =>
    intro att st le r st1 heq hs
    simp only [GeminiService.generateAttemptLoop] at heq
    injection heq with h1 h2
    rw [← h1] at hs
    simp [GeminiService.genFailure] at hs
  | succ n ih =>
    intro att st le r st1 heq hs
    simp only [GeminiService.generateAttemptLoop] at heq
    split at heq
    · injection heq with h1 h2
      rw [← h1] at hs
      simp [GeminiService.genFailure] at hs
    · split at heq
      · exact ih _ _ _ _ _ heq hs
      · exact ih _ _ _ _ _ heq hs
      · split at heq
        · exact ih _ _ _ _ _ heq hs
        · split at heq
          · exact ih _ _ _ _ _ heq hs
          · rename_i hbad hgood
            injection heq with h1 h2
            subst h1
            refine ⟨rfl, rfl, ?_, ?_⟩
            · simp only [Bool.or_eq_true, not_or] at hbad
              have := hbad.2
              simp only [decide_eq_true_eq, Nat.not_lt] at this
              exact this
            · simp only [Bool.or_eq_true, not_or] at hgood
              have := hgood.2
              simp only [decide_eq_true_eq, Nat.not_lt] at this
              exact this

/-- C1 (counterexample): a flat-mode generation through the fast text
SambaNova pipeline whose provider call succeeds returns `success = true`
with an HTML of 9 characters — far below the claimed 100-character floor —
because the SambaNova `generateWebPage` has no validation gate. -/
theorem sambaFlat_success_below_floor :
    c1Out.success = true ∧ c1Out.pipeline = "sambanova" ∧
    c1Out.html.length = 9 ∧ c1Out.html.length < 100 ∧ c1Out.css.length < 50 :=
  ⟨rfl, rfl, rfl, by decide, by decide⟩

/-- C1 (amended): the validation floors hold for the Gemini vision pipeline
(`generateWebPageWithImages`): a result with `success = true` always has
`html.length >= 100` and `css.length >= 50`; the SambaNova fast text
pipeline returns whatever its parser recovered, without these floors. -/
theorem geminiFlat_success_meets_floors (st : PoolState) (oracle : Nat → FetchOutcome)
    (rand : Nat → Nat) (p : String) (assets : List Asset) (dj : Option Json)
    (ex : Option String) (r : GeminiService.GenResult) (st1 : PoolState)
    (heq : GeminiService.generateWebPageWithImages st oracle rand p assets dj ex = .ok (r, st1))
    (hs : r.success = true) :
    100 ≤ r.html.length ∧ 50 ≤ r.css.length := by
  simp only [GeminiService.generateWebPageWithImages] at heq
  split at heq
  · cases heq
  · injection heq with h1
    obtain ⟨-, -, h3, h4⟩ :=
      generateAttemptLoop_success_invariant oracle rand _ _ _ _ _ _ _ r st1 h1 hs
    exact ⟨h3, h4⟩

set_option maxRecDepth 20000 in
/-- C1 (amended, witness): a concrete Gemini run whose response passes the
gate: the floors hold on the returned result. -/
theorem geminiFlat_success_meets_floors_witness :
    100 ≤ c1GemOut.html.length ∧ 50 ≤ c1GemOut.css.length :=
  geminiFlat_success_meets_floors oneKeyPool goodGeminiOracle (fun _ => 0) "prompt" [] none none
    c1GemOut c1GemSt rfl (by rfl)

theorem optimizeAttemptLoop_success_invariant (oracle : Nat → FetchOutcome) (rand : Nat → Nat)
    (apiKey : String) (p : String) (ic : Nat) :
    ∀ rem att st d rw le r st1,
      GeminiService.optimizeAttemptLoop oracle rand apiKey p ic rem att st d rw le = (r, st1) →
      r.success = true →
      r.designJSON.isSome = true ∧
      optTruthy (r.designJSON.bind (fun j => j.getField "layout")) = true ∧
      optTruthy (r.designJSON.bind (fun j => j.getField "colors")) = true := by
  intro rem
  induction rem with
  | zero =>
    intro att st d rw le r st1 heq hs
    simp only [GeminiService.optimizeAttemptLoop] at heq
    injection heq with h1 h2
    rw [← h1] at hs
    simp [GeminiService.optFailure] at hs
  | succ n ih =>
    intro att st d rw le r st1 heq hs
    simp only [GeminiService.optimizeAttemptLoop] at heq
    split at heq
    · injection heq with h1 h2
      rw [← h1] at hs
      simp [GeminiService.optFailure] at hs
    · split at heq
      · exact ih _ _ _ _ _ _ _ heq hs
      · exact ih _ _ _ _ _ _ _ heq hs
      · split at heq
        · exact ih _ _ _ _ _ _ _ heq hs
        · split at heq
          · exact ih _ _ _ _ _ _ _ heq hs
          · rename_i hvalid
            injection heq with h1 h2
            subst h1
            simp only [Bool.or_eq_true, not_or, Bool.not_eq_true',
              Bool.not_eq_false] at hvalid
            exact ⟨rfl, by simpa using hvalid.1, by simpa using hvalid.2⟩

/-- C2: whenever the Prompt Optimizer returns `success = true`, the
returned `designJSON` is a parsed JSON value whose `layout` and `colors`
members are both present (truthy); a response whose extracted JSON lacks
either is rejected by the validation step and retried, never returned as a
success. -/
theorem optimizePrompt_success_designJSON_valid (st : PoolState)
    (oracle : Nat → FetchOutcome) (rand : Nat → Nat) (p : String) (a : List Asset)
    (r : GeminiService.OptResult) (st1 : PoolState)
    (heq : GeminiService.optimizePrompt st oracle rand p a = .ok (r, st1))
    (hs : r.success = true) :
    r.designJSON.isSome = true ∧
    optTruthy (r.designJSON.bind (fun j => j.getField "layout")) = true ∧
    optTruthy (r.designJSON.bind (fun j => j.getField "colors")) = true := by
  simp only [GeminiService.optimizePrompt] at heq
  split at heq
  · cases heq
  · injection heq with h1
    exact optimizeAttemptLoop_success_invariant oracle rand _ _ _ _ _ _ _ _ _ r st1 h1 hs

set_option maxRecDepth 20000 in
/-- C2 (witness): a concrete optimizer run whose response carries a valid
design JSON: the returned structured spec has both `layout` and
`colors`. -/
theorem optimizePrompt_success_designJSON_valid_witness :
    c2Out.designJSON.isSome = true ∧
    optTruthy (c2Out.designJSON.bind (fun j => j.getField "layout")) = true ∧
    optTruthy (c2Out.designJSON.bind (fun j => j.getField "colors")) = true :=
  optimizePrompt_success_designJSON_valid oneKeyPool goodOptOracle (fun _ => 0)
    "make a page" [] c2Out c2St rfl (by rfl)

theorem optimizeAttemptLoop_oracle_agree (rand : Nat → Nat) (apiKey : String)
    (p : String) (ic : Nat) (o1 o2 : Nat → FetchOutcome) :
    ∀ rem att st d rw le,
      (∀ i, att ≤ i → i < att + rem → o1 i = o2 i) →
      GeminiService.optimizeAttemptLoop o1 rand apiKey p ic rem att st d rw le =
      GeminiService.optimizeAttemptLoop o2 rand apiKey p ic rem att st d rw le := by
  intro rem
  induction rem with
  | zero => intro att st d rw le _; simp only [GeminiService.optimizeAttemptLoop]
  | succ n ih =>
    intro att st d rw le hagree
    have hatt : o1 att = o2 att := hagree att (Nat.le_refl att) (by omega)
    have hrest : ∀ i, att + 1 ≤ i → i < att + 1 + n → o1 i = o2 i := by
      intro i h1 h2
      exact hagree i (by omega) (by omega)
    simp only [GeminiService.optimizeAttemptLoop, ← hatt]
    split
    · rfl
    · split
      · exact ih (att + 1) _ _ _ _ hrest
      · exact ih (att + 1) _ _ _ _ hrest
      · split
        · exact ih (att + 1) _ _ _ _ hrest
        · split
          · exact ih (att + 1) _ _ _ _ hrest
          · rfl

theorem optimizeAttemptLoop_failure_salvage (oracle : Nat → FetchOutcome) (rand : Nat → Nat)
    (apiKey : String) (p : String) (ic : Nat) :
    ∀ rem att st d rw le r st1, st.keys ≠ [] →
      GeminiService.optimizeAttemptLoop oracle rand apiKey p ic rem att st d rw le = (r, st1) →
      r.success = false →
      r.optimizedPrompt = (lastSalvage oracle rem att d rw).1 ∧
      r.rawOutput = (lastSalvage oracle rem att d rw).2 ∧
      r.designJSON = none := by
  intro rem
  induction rem with
  | zero =>
    intro att st d rw le r st1 _ heq _
    simp only [GeminiService.optimizeAttemptLoop] at heq
    injection heq with h1 h2
    rw [← h1]
    exact ⟨rfl, rfl, rfl⟩
  | succ n ih =>
    intro att st d rw le r st1 hkeys heq hs
    simp only [GeminiService.optimizeAttemptLoop] at heq
    split at heq
    · -- `break`: the selection returned `none`, impossible with a non-empty pool
      rename_i hnone
      exfalso
      by_cases hatt : (att == 0) = true
      · rw [if_pos hatt] at hnone
        cases hnone
      · rw [if_neg hatt] at hnone
        exact hkeys ((getRandomKey_none_iff st (some apiKey) (rand att)).mp hnone)
    · rename_i currentKey hsome
      split at heq
      · rename_i hout
        have hk2 : (markKeyFailed (if (att == 0) = true then (some apiKey, st)
            else getRandomKey st (some apiKey) (rand att)).2 currentKey).keys ≠ [] := by
          rw [markKeyFailed_keys_eq]
          split <;> simp [getRandomKey_keys_eq, hkeys]
        have := ih (att + 1) _ d rw le r st1 hk2 heq hs
        simpa [lastSalvage, hout] using this
      · rename_i msg hout
        have := ih (att + 1) _ d rw (some msg) r st1
          (by split <;> simp [getRandomKey_keys_eq, hkeys]) heq hs
        simpa [lastSalvage, hout] using this
      · rename_i body hout
        split at heq
        · have := ih (att + 1) _ _ _ le r st1
            (by split <;> simp [getRandomKey_keys_eq, hkeys]) heq hs
          simpa [lastSalvage, hout] using this
        · split at heq
          · have := ih (att + 1) _ _ _ le r st1
              (by split <;> simp [getRandomKey_keys_eq, hkeys]) heq hs
            simpa [lastSalvage, hout] using this
          · injection heq with h1 h2
            rw [← h1] at hs
            simp at hs

/-- C7: (a) the Prompt Optimizer inspects at most the first three provider
outcomes — the result is unchanged under any modification of the oracle
from attempt 3 on; (b) on exhaustion it returns `success = false` while
surfacing the display text extracted from the most recent 2xx attempt
(possibly empty) together with that attempt's raw output, and a `null`
design JSON. -/
theorem optimizePrompt_bound_and_salvage (st : PoolState) (o1 o2 : Nat → FetchOutcome)
    (rand : Nat → Nat) (p : String) (a : List Asset) :
    ((∀ i, i < 3 → o1 i = o2 i) →
      GeminiService.optimizePrompt st o1 rand p a = GeminiService.optimizePrompt st o2 rand p a) ∧
    (∀ r st1, GeminiService.optimizePrompt st o1 rand p a = .ok (r, st1) →
      r.success = false →
      r.optimizedPrompt = (lastSalvage o1 3 0 "" "").1 ∧
      r.rawOutput = (lastSalvage o1 3 0 "" "").2 ∧
      r.designJSON = none) := by
  constructor
  · intro hagree
    simp only [GeminiService.optimizePrompt]
    split
    · rfl
    · rw [optimizeAttemptLoop_oracle_agree rand _ p _ o1 o2 3 0 _ "" "" none
        (fun i _ hi => hagree i (by omega))]
  · intro r st1 heq hs
    simp only [GeminiService.optimizePrompt] at heq
    split at heq
    · cases heq
    · rename_i hsome
      have hkeys : ((getRandomKey st none (rand 0)).2).keys ≠ [] := by
        rw [getRandomKey_keys_eq]
        intro hnil
        have : (getRandomKey st none (rand 0)).1 = none :=
          (getRandomKey_none_iff st none (rand 0)).mpr hnil
        rw [this] at hsome
        cases hsome
      injection heq with h1
      exact optimizeAttemptLoop_failure_salvage o1 rand _ p _ 3 0 _ "" "" none r st1
        hkeys h1 hs

set_option maxRecDepth 20000 in
/-- C7 (witness): two oracles agreeing on attempts 0–2 give identical
optimizer results, and a concrete run whose three attempts all carry an
invalid design JSON fails while surfacing the last extracted display text
and raw output. -/
theorem optimizePrompt_bound_and_salvage_witness :
    (GeminiService.optimizePrompt oneKeyPool c7OracleA (fun _ => 0) "p" [] =
      GeminiService.optimizePrompt oneKeyPool c7OracleB (fun _ => 0) "p" []) ∧
    (c7Out.optimizedPrompt = (lastSalvage badOptOracle 3 0 "" "").1 ∧
     c7Out.rawOutput = (lastSalvage badOptOracle 3 0 "" "").2 ∧
     c7Out.designJSON = none) :=
  ⟨(optimizePrompt_bound_and_salvage oneKeyPool c7OracleA c7OracleB (fun _ => 0) "p" []).1
     (fun i hi => by simp [c7OracleA, c7OracleB, hi]),
   (optimizePrompt_bound_and_salvage oneKeyPool badOptOracle badOptOracle (fun _ => 0)
      "make a page" []).2 c7Out c7St rfl (by rfl)⟩

theorem generateWithImage_trace (st : PoolState) (env : CodeGeneratorRouter.Env)
    (p : String) (assets : List Asset) (fw : String) :
    (CodeGeneratorRouter.generateWithImage st env p assets fw).2 =
      (if CodeGeneratorRouter.preprocessAttempted assets then [CodeGeneratorRouter.CallEvent.preprocess] else []) ++
        [CodeGeneratorRouter.CallEvent.geminiGenerate] := by
  simp only [CodeGeneratorRouter.generateWithImage]
  split
  · rfl
  · split
    · rfl
    · rfl

theorem generateTextOnly_trace (st : PoolState) (env : CodeGeneratorRouter.Env)
    (p : String) (fw : String) :
    (CodeGeneratorRouter.generateTextOnly st env p fw).2 =
      [CodeGeneratorRouter.CallEvent.sambaGenerate] := by
  simp only [CodeGeneratorRouter.generateTextOnly]
  split
  · rfl
  · rfl

set_option maxRecDepth 20000 in
/-- C4 (counterexample): an asset list whose single asset is image-kind but
carries no `data` payload routes to the vision pipeline, yet the image
pre-processing step is skipped (the guard `imageAsset?.data` fails), so
"pre-processing attempted" does not hold for every vision-routed call. -/
theorem router_image_without_data_skips_preprocess :
    ([imageAssetNoData].any (fun a => a.type == "image") = true) ∧
    (CodeGeneratorRouter.generateCode ⟨["g1"], []⟩ c4Env "p" [imageAssetNoData] "html").2 =
      [CodeGeneratorRouter.CallEvent.geminiGenerate] ∧
    CodeGeneratorRouter.CallEvent.preprocess ∉
      (CodeGeneratorRouter.generateCode ⟨["g1"], []⟩ c4Env "p" [imageAssetNoData] "html").2 :=
  ⟨by decide, by rfl, by
    rw [CodeGeneratorRouter.generateCode]
    decide⟩

/-- C4 (amended): the router routes by image presence — at least one
image-kind asset invokes the vision (Gemini) pipeline and never the fast
text pipeline, with pre-processing attempted exactly when the first
image-kind asset has a non-empty data payload; with zero image-kind assets
the fast text (SambaNova) pipeline is invoked and pre-processing is skipped
entirely. -/
theorem generateCode_routing (st : PoolState) (env : CodeGeneratorRouter.Env) (p : String)
    (assets : List Asset) (fw : String) :
    (assets.any (fun a => a.type == "image") = true →
      CodeGeneratorRouter.CallEvent.geminiGenerate ∈
        (CodeGeneratorRouter.generateCode st env p assets fw).2 ∧
      CodeGeneratorRouter.CallEvent.sambaGenerate ∉
        (CodeGeneratorRouter.generateCode st env p assets fw).2 ∧
      (CodeGeneratorRouter.CallEvent.preprocess ∈
          (CodeGeneratorRouter.generateCode st env p assets fw).2 ↔
        CodeGeneratorRouter.preprocessAttempted assets = true)) ∧
    (assets.any (fun a => a.type == "image") = false →
      (CodeGeneratorRouter.generateCode st env p assets fw).2 =
        [CodeGeneratorRouter.CallEvent.sambaGenerate]) := by
  constructor
  · intro himg
    have ht : (CodeGeneratorRouter.generateCode st env p assets fw).2 =
        (if CodeGeneratorRouter.preprocessAttempted assets then [CodeGeneratorRouter.CallEvent.preprocess]
          else []) ++ [CodeGeneratorRouter.CallEvent.geminiGenerate] := by
      simp only [CodeGeneratorRouter.generateCode, himg, if_true]
      exact generateWithImage_trace st env p assets fw
    rw [ht]
    by_cases hd : CodeGeneratorRouter.preprocessAttempted assets = true
    · simp [hd]
    · simp [hd]
  · intro himg
    simp only [CodeGeneratorRouter.generateCode, himg, Bool.false_eq_true, if_false]
    exact generateTextOnly_trace st env p fw

/-- C4 (amended, witness): an image asset with a data URI yields the vision
pipeline with pre-processing; an empty asset list yields the fast text
pipeline alone. -/
theorem generateCode_routing_witness :
    (CodeGeneratorRouter.CallEvent.geminiGenerate ∈
        (CodeGeneratorRouter.generateCode ⟨["g1"], []⟩ c4Env "p" [imageAssetWithData] "html").2 ∧
      CodeGeneratorRouter.CallEvent.sambaGenerate ∉
        (CodeGeneratorRouter.generateCode ⟨["g1"], []⟩ c4Env "p" [imageAssetWithData] "html").2 ∧
      (CodeGeneratorRouter.CallEvent.preprocess ∈
          (CodeGeneratorRouter.generateCode ⟨["g1"], []⟩ c4Env "p" [imageAssetWithData] "html").2 ↔
        CodeGeneratorRouter.preprocessAttempted [imageAssetWithData] = true)) ∧
    (CodeGeneratorRouter.generateCode ⟨["g1"], []⟩ c4Env "p" [] "html").2 =
      [CodeGeneratorRouter.CallEvent.sambaGenerate] :=
  ⟨(generateCode_routing ⟨["g1"], []⟩ c4Env "p" [imageAssetWithData] "html").1 (by decide),
   (generateCode_routing ⟨["g1"], []⟩ c4Env "p" [] "html").2 (by decide)⟩

theorem optimizePrompt_isOk_iff (st : PoolState) (oracle : Nat → FetchOutcome)
    (rand : Nat → Nat) (p : String) (a : List Asset) :
    (GeminiService.optimizePrompt st oracle rand p a).isOk = true ↔ st.keys ≠ [] := by
  simp only [GeminiService.optimizePrompt]
  constructor
  · intro h hnil
    have : (getRandomKey st none (rand 0)).1 = none :=
      (getRandomKey_none_iff st none (rand 0)).mpr hnil
    rw [this] at h
    simp [Except.isOk, Except.toBool] at h
  · intro hne
    have := getRandomKey_some_of_keys_ne_nil st none (rand 0) hne
    obtain ⟨k, hk⟩ := Option.isSome_iff_exists.mp this
    rw [hk]
    rfl

theorem genWPWI_isOk_iff (st : PoolState) (oracle : Nat → FetchOutcome)
    (rand : Nat → Nat) (p : String) (a : List Asset) (dj : Option Json) (ex : Option String) :
    (GeminiService.generateWebPageWithImages st oracle rand p a dj ex).isOk = true ↔
      st.keys ≠ [] := by
  simp only [GeminiService.generateWebPageWithImages]
  constructor
  · intro h hnil
    have : (getRandomKey st ex (rand 0)).1 = none :=
      (getRandomKey_none_iff st ex (rand 0)).mpr hnil
    rw [this] at h
    simp [Except.isOk, Except.toBool] at h
  · intro hne
    have := getRandomKey_some_of_keys_ne_nil st ex (rand 0) hne
    obtain ⟨k, hk⟩ := Option.isSome_iff_exists.mp this
    rw [hk]
    rfl

theorem generateReactWithGemini_isOk_iff (st : PoolState) (env : CodeGeneratorRouter.Env)
    (p : String) (a : List Asset) (dj : Option Json) :
    (CodeGeneratorRouter.generateReactWithGemini st env p a dj).isOk = true ↔
      st.keys ≠ [] := by
  rw [← genWPWI_isOk_iff st env.geminiOracle env.rand p a dj none]
  simp only [CodeGeneratorRouter.generateReactWithGemini]
  cases hg : GeminiService.generateWebPageWithImages st env.geminiOracle env.rand p a dj none with
  | error e => exact Iff.rfl
  | ok v =>
    obtain ⟨r1, s1⟩ := v
    dsimp only
    split
    · simp [Except.isOk, Except.toBool]
    · split
      · simp [Except.isOk, Except.toBool]
      · split
        · simp [Except.isOk, Except.toBool]
        · simp [Except.isOk, Except.toBool]

theorem generateWithImage_isOk_iff (st : PoolState) (env : CodeGeneratorRouter.Env)
    (p : String) (a : List Asset) (fw : String) :
    (CodeGeneratorRouter.generateWithImage st env p a fw).1.isOk = true ↔ st.keys ≠ [] := by
  simp only [CodeGeneratorRouter.generateWithImage]
  by_cases hatt : CodeGeneratorRouter.preprocessAttempted a = true
  · simp only [hatt, if_true]
    split
    · exact generateReactWithGemini_isOk_iff st env p a _
    · rw [← genWPWI_isOk_iff st env.geminiOracle env.rand p a
        (HfPreprocessorService.buildDesignJSON
          (some (HfPreprocessorService.preprocessImage env.hfOutcome))) none]
      cases hg : GeminiService.generateWebPageWithImages st env.geminiOracle env.rand p a
          (HfPreprocessorService.buildDesignJSON
            (some (HfPreprocessorService.preprocessImage env.hfOutcome))) none with
      | error e => exact Iff.rfl
      | ok v =>
        obtain ⟨r1, s1⟩ := v
        simp [Except.isOk, Except.toBool]
  · simp only [hatt, Bool.false_eq_true, if_false]
    split
    · exact generateReactWithGemini_isOk_iff st env p a _
    · rw [← genWPWI_isOk_iff st env.geminiOracle env.rand p a none none]
      cases hg : GeminiService.generateWebPageWithImages st env.geminiOracle env.rand p a
          none none with
      | error e => exact Iff.rfl
      | ok v =>
        obtain ⟨r1, s1⟩ := v
        simp [Except.isOk, Except.toBool]

theorem sambaChatCall_ok_or_error (cfg : Bool) (o : Except String String)
    (r : SambaNovaService.ChatResult)
    (h : r = if !cfg then
        { success := false, content := "", error := some SambaNovaService.noKeyMsg }
      else
        match o with
        | .ok c => { success := true, content := c }
        | .error m => { success := false, content := "", error := some m }) :
    r.success = true ∨ r.error.isSome = true := by
  subst h
  cases cfg with
  | false => simp
  | true => cases o with
    | ok c => simp
    | error m => simp

/-- C6 (counterexample): with zero configured credentials the Prompt
Optimizer does not return an error value — it throws (a rejected promise
carrying the configuration message), refuting "each entry point returns a
result/error value rather than throwing" for every input. -/
theorem optimizePrompt_throws_without_keys :
    GeminiService.optimizePrompt ⟨[], []⟩ (fun _ => FetchOutcome.ok "") (fun _ => 0) "p" [] =
      .error GeminiService.noKeysMsg := rfl

/-- C6 (amended): the entry points absorb provider failures and return
result values except in the zero-credential configuration case:
`optimizePrompt` and `generateWebPageWithImages` throw exactly when the
Gemini pool is empty, the router throws exactly when it routes to the
vision pipeline with an empty Gemini pool (its text-only path always
returns), and the SambaNova `chat` always returns a result value carrying
either `success = true` or an error message — even when its provider key is
not configured. -/
theorem entry_points_return_unless_no_keys (st : PoolState) (oracle : Nat → FetchOutcome)
    (rand : Nat → Nat) (p : String) (a : List Asset) (dj : Option Json) (ex : Option String)
    (env : CodeGeneratorRouter.Env) (fw : String) (cfg : Bool)
    (so : Except String String) (msg tt : String) :
    ((GeminiService.optimizePrompt st oracle rand p a).isOk = true ↔ st.keys ≠ []) ∧
    ((GeminiService.generateWebPageWithImages st oracle rand p a dj ex).isOk = true ↔
      st.keys ≠ []) ∧
    ((CodeGeneratorRouter.generateCode st env p a fw).1.isOk = true ↔
      (st.keys ≠ [] ∨ a.any (fun x => x.type == "image") = false)) ∧
    ((SambaNovaService.chat cfg so msg tt).success = true ∨
      (SambaNovaService.chat cfg so msg tt).error.isSome = true) := by
  refine ⟨optimizePrompt_isOk_iff st oracle rand p a,
    genWPWI_isOk_iff st oracle rand p a dj ex, ?_, ?_⟩
  · by_cases himg : a.any (fun x => x.type == "image") = true
    · have hrhs : (st.keys ≠ [] ∨ a.any (fun x => x.type == "image") = false) ↔
          st.keys ≠ [] := by
        constructor
        · rintro (h | h)
          · exact h
          · rw [himg] at h; cases h
        · exact Or.inl
      rw [hrhs]
      simp only [CodeGeneratorRouter.generateCode, himg, if_true]
      exact generateWithImage_isOk_iff st env p a fw
    · simp only [CodeGeneratorRouter.generateCode, himg]
      have himgf : a.any (fun x => x.type == "image") = false := by
        simpa using himg
      simp only [himgf, Bool.false_eq_true, if_false]
      simp only [CodeGeneratorRouter.generateTextOnly]
      constructor
      · intro _
        simp [himgf]
      · intro _
        split <;> rfl
  · simp only [SambaNovaService.chat]
    split
    · exact sambaChatCall_ok_or_error cfg so _ rfl
    · split
      · exact sambaChatCall_ok_or_error cfg so _ rfl
      · split
        · exact sambaChatCall_ok_or_error cfg so _ rfl
        · exact sambaChatCall_ok_or_error cfg so _ rfl

theorem listStartsWithBy_of_append (q : List Char) :
    ∀ (p l : List Char), listStartsWithBy eqCS (p ++ q) l = true →
      listStartsWithBy eqCS p l = true := by
  intro p
  induction p with
  | nil => intro l _; rfl
  | cons c cs ih =>
    intro l h
    cases l with
    | nil => simp [listStartsWithBy] at h
    | cons d ds =>
      simp only [List.cons_append, listStartsWithBy, Bool.and_eq_true] at h ⊢
      exact ⟨h.1, ih ds h.2⟩

theorem splitAtSubByAux_none_of_append (p q : List Char) :
    ∀ (l acc acc2 : List Char), splitAtSubByAux eqCS p acc l = none →
      splitAtSubByAux eqCS (p ++ q) acc2 l = none := by
  intro l
  induction l with
  | nil => intro acc acc2 _; rfl
  | cons c cs ih =>
    intro acc acc2 h
    simp only [splitAtSubByAux] at h ⊢
    split at h
    · cases h
    · rename_i hstart
      split
      · rename_i hstart2
        exact absurd (listStartsWithBy_of_append q p _ hstart2) (by simpa using hstart)
      · exact ih _ _ h

theorem splitAtSub_none_of_append (p q l : List Char) (hp : p ≠ []) :
    splitAtSub p l = none → splitAtSub (p ++ q) l = none := by
  intro h
  unfold splitAtSub splitAtSubBy at h ⊢
  rw [if_neg (by simpa using hp)] at h
  rw [if_neg (by simp [hp])]
  exact splitAtSubByAux_none_of_append p q l [] [] h

theorem parseReactOutput_nil_of_no_marker (content : String)
    (h : containsStr content "---FILE" = false) :
    CodeGeneratorRouter.parseReactOutput content = [] := by
  have hnone : splitAtSub "---FILE".data content.data = none := by
    unfold containsStr containsSub at h
    exact Option.not_isSome_iff_eq_none.mp (by simpa using h)
  have hnone2 : splitAtSub "---FILE:".data content.data = none := by
    have hsplit : ("---FILE:".data) = "---FILE".data ++ [':'] := rfl
    rw [hsplit]
    exact splitAtSub_none_of_append _ _ _ (by decide) hnone
  unfold CodeGeneratorRouter.parseReactOutput
  cases content.length with
  | zero => rfl
  | succ n => simp only [CodeGeneratorRouter.parseReactChunksF, hnone2]

theorem genWPWI_success_invariant (st : PoolState) (oracle : Nat → FetchOutcome)
    (rand : Nat → Nat) (p : String) (assets : List Asset) (dj : Option Json)
    (ex : Option String) (r : GeminiService.GenResult) (st1 : PoolState)
    (heq : GeminiService.generateWebPageWithImages st oracle rand p assets dj ex = .ok (r, st1))
    (hs : r.success = true) :
    r.html = (GeminiService.parseGeneratedCode r.rawContent).1 ∧
    r.css = (GeminiService.parseGeneratedCode r.rawContent).2 ∧
    100 ≤ r.html.length ∧ 50 ≤ r.css.length := by
  simp only [GeminiService.generateWebPageWithImages] at heq
  split at heq
  · cases heq
  · injection heq with h1
    exact generateAttemptLoop_success_invariant oracle rand _ _ _ _ _ _ _ r st1 h1 hs

/-- C5: in multi-file (react) mode, when the Gemini generation succeeds but
its raw response contains no `---FILE` marker, the router degrades
gracefully: it returns `success = true` with the synthesized
single-component wrapper (an `App.tsx` wrapping the recovered HTML and an
`index.css` with the recovered CSS) rather than `success = false`. -/
theorem reactMode_flat_fallback_wraps (st : PoolState) (env : CodeGeneratorRouter.Env)
    (p : String) (assets : List Asset) (dj : Option Json)
    (r : GeminiService.GenResult) (st1 : PoolState)
    (hgen : GeminiService.generateWebPageWithImages st env.geminiOracle env.rand p assets
      dj none = .ok (r, st1))
    (hs : r.success = true)
    (hmark : containsStr r.rawContent "---FILE" = false) :
    CodeGeneratorRouter.generateReactWithGemini st env p assets dj =
      .ok ({ success := true,
             files := CodeGeneratorRouter.fallbackWrapperFiles
               (GeminiService.parseGeneratedCode r.rawContent).1
               (GeminiService.parseGeneratedCode r.rawContent).2,
             rawContent := r.rawContent, pipeline := "gemini", framework := "react",
             usedHF := some dj.isSome, geminiCalls := some 1,
             fallback := some true }, st1) := by
  obtain ⟨hhtml, hcss, hlen, _⟩ :=
    genWPWI_success_invariant st env.geminiOracle env.rand p assets dj none r st1 hgen hs
  have hfiles : CodeGeneratorRouter.parseReactOutput r.rawContent = [] :=
    parseReactOutput_nil_of_no_marker _ hmark
  have hne : ¬((GeminiService.parseGeneratedCode r.rawContent).1 == "") = true := by
    intro hempty
    have he : (GeminiService.parseGeneratedCode r.rawContent).1 = "" := by simpa using hempty
    rw [← hhtml] at he
    rw [he] at hlen
    simp at hlen
  simp only [CodeGeneratorRouter.generateReactWithGemini, hgen, hs, Bool.not_true,
    Bool.false_eq_true, if_false, hfiles, List.length_nil, gt_iff_lt, Nat.lt_irrefl]
  simp only [hne, Bool.not_eq_true', Bool.not_eq_false]
  simp

set_option maxRecDepth 20000 in
/-- C5 (witness): a concrete react-mode run whose marker-free response
passes the flat gate is degraded to the synthesized wrapper file set with
`success = true`. -/
theorem reactMode_flat_fallback_wraps_witness :
    CodeGeneratorRouter.generateReactWithGemini oneKeyPool c4Env "prompt" [] none =
      .ok ({ success := true,
             files := CodeGeneratorRouter.fallbackWrapperFiles
               (GeminiService.parseGeneratedCode c5R.rawContent).1
               (GeminiService.parseGeneratedCode c5R.rawContent).2,
             rawContent := c5R.rawContent, pipeline := "gemini", framework := "react",
             usedHF := some (none : Option Json).isSome, geminiCalls := some 1,
             fallback := some true }, c5St1) :=
  reactMode_flat_fallback_wraps oneKeyPool c4Env "prompt" [] none c5R c5St1
    rfl (by rfl) (by decide)

theorem firstGoodTag_cons (b : CodeBlock) (bs : List CodeBlock) (tag : String) :
    firstGoodTag (b :: bs) tag =
      if (b.language == tag && !(jsTrim b.content == "")) = true then jsTrim b.content
      else firstGoodTag bs tag := by
  unfold firstGoodTag
  rw [List.find?_cons]
  by_cases h : (b.language == tag && !(jsTrim b.content == "")) = true
  · simp [h]
  · simp [h]

theorem taggedPass_eq (bs : List CodeBlock) : ∀ h c,
    GeminiService.taggedPass bs h c =
      ((if h == "" then firstGoodTag bs "html" else h),
       (if c == "" then firstGoodTag bs "css" else c)) := by
  induction bs with
  | nil =>
    intro h c
    simp only [GeminiService.taggedPass, firstGoodTag, List.find?_nil]
    simp only [Prod.mk.injEq]
    constructor
    · by_cases hh : (h == "") = true
      · have h0 : h = "" := by simpa using hh
        subst h0; simp
      · simp [hh]
    · by_cases hc2 : (c == "") = true
      · have c0 : c = "" := by simpa using hc2
        subst c0; simp
      · simp [hc2]
  | cons b bs ih =>
    intro h c
    simp only [GeminiService.taggedPass]
    rw [firstGoodTag_cons, firstGoodTag_cons]
    split
    · rename_i hcond
      simp only [Bool.and_eq_true] at hcond
      obtain ⟨hlang, hh⟩ := hcond
      have hlang2 : b.language = "html" := by simpa using hlang
      rw [ih]
      simp only [Prod.mk.injEq]
      constructor
      · by_cases ht : (jsTrim b.content == "") = true
        · simp [hh, hlang2, ht]
        · simp [hh, hlang2, ht]
      · simp [hlang2]
    · split
      · rename_i hnot1 hcond
        simp only [Bool.and_eq_true] at hcond
        obtain ⟨hlang, hcc⟩ := hcond
        have hlang2 : b.language = "css" := by simpa using hlang
        rw [ih]
        simp only [Prod.mk.injEq]
        constructor
        · simp [hlang2]
        · by_cases ht : (jsTrim b.content == "") = true
          · simp [hcc, hlang2, ht]
          · simp [hcc, hlang2, ht]
      · rename_i hnot1 hnot2
        rw [ih]
        simp only [Prod.mk.injEq]
        constructor
        · by_cases hh : (h == "") = true
          · have hlangf : (b.language == "html") = false := by
              cases hbx : (b.language == "html") with
              | false => rfl
              | true => exact absurd (by simp [hbx, hh]) hnot1
            simp [hh, hlangf]
          · simp [hh]
        · by_cases hcc : (c == "") = true
          · have hlangf : (b.language == "css") = false := by
              cases hbx : (b.language == "css") with
              | false => rfl
              | true => exact absurd (by simp [hbx, hcc]) hnot2
            simp [hcc, hlangf]
          · simp [hcc]

theorem find?_and_of_find? {α : Type} (p q : α → Bool) :
    ∀ (l : List α) (b : α), l.find? p = some b → q b = true →
      l.find? (fun x => p x && q x) = some b := by
  intro l
  induction l with
  | nil => intro b h; cases h
  | cons a l ih =>
    intro b h hq
    rw [List.find?_cons] at h
    rw [List.find?_cons]
    cases hpa : p a with
    | true =>
      rw [hpa] at h
      injection h with hab
      subst hab
      simp [hpa, hq]
    | false =>
      rw [hpa] at h
      simp only [hpa, Bool.false_and]
      exact ih b h hq

/-- C9 (counterexample): the claim says the first html-tagged block's
trimmed body is always returned and later duplicates are ignored; but when
the first html-tagged block trims to the empty string the slot stays falsy
and a LATER html-tagged block overwrites it. -/
theorem parser_first_tagged_block_counterexample :
    ((scanCodeBlocks c9Content).find? (fun b => b.language == "html")).map
        (fun b => jsTrim b.content) = some "" ∧
    (GeminiService.parseGeneratedCode c9Content).1 = "<p>hello</p>" ∧
    ¬((GeminiService.parseGeneratedCode c9Content).1 = "") :=
  ⟨by decide, by decide, by decide⟩

/-- C9 (amended): when the first html-tagged and first css-tagged blocks
both have non-empty trimmed bodies, `parseGeneratedCode` returns exactly
those trimmed bodies and ignores all later blocks; a first tagged block
that trims to empty leaves its slot unfilled (falsy) and a later same-tag
block may fill it. -/
theorem parseGeneratedCode_tagged_roundtrip (content : String) (hB cB : CodeBlock)
    (hh : (scanCodeBlocks content).find? (fun b => b.language == "html") = some hB)
    (hc : (scanCodeBlocks content).find? (fun b => b.language == "css") = some cB)
    (hhne : ¬(jsTrim hB.content = ""))
    (hcne : ¬(jsTrim cB.content = "")) :
    GeminiService.parseGeneratedCode content = (jsTrim hB.content, jsTrim cB.content) := by
  have hce : (content == "") = false := by
    cases hx : (content == "") with
    | false => rfl
    | true =>
      exfalso
      have h0 : content = "" := by simpa using hx
      subst h0
      simp [scanCodeBlocks, scanCodeBlocksF] at hh
  have hfh : firstGoodTag (scanCodeBlocks content) "html" = jsTrim hB.content := by
    unfold firstGoodTag
    rw [find?_and_of_find? (fun b => b.language == "html")
      (fun b => !(jsTrim b.content == "")) _ hB hh (by simpa using hhne)]
  have hfc : firstGoodTag (scanCodeBlocks content) "css" = jsTrim cB.content := by
    unfold firstGoodTag
    rw [find?_and_of_find? (fun b => b.language == "css")
      (fun b => !(jsTrim b.content == "")) _ cB hc (by simpa using hcne)]
  have hb1 : (jsTrim hB.content == "") = false := by simpa using hhne
  have hb2 : (jsTrim cB.content == "") = false := by simpa using hcne
  simp only [GeminiService.parseGeneratedCode, hce, Bool.false_eq_true, if_false,
    taggedPass_eq, beq_self_eq_true, if_true, hfh, hfc, hb1, hb2, Bool.or_self,
    Bool.false_or, Bool.or_false, Bool.false_and, Bool.and_false]

set_option maxRecDepth 20000 in
/-- C9 (amended, witness): content with non-empty first html/css-tagged
blocks and later duplicates round-trips to exactly the first blocks'
trimmed bodies. -/
theorem parseGeneratedCode_tagged_roundtrip_witness :
    GeminiService.parseGeneratedCode c9GoodContent = ("<p>first</p>", ".a\x7bcolor:red\x7d") :=
  parseGeneratedCode_tagged_roundtrip c9GoodContent
    ⟨"html", "<p>first</p>\n"⟩ ⟨"css", ".a\x7bcolor:red\x7d\n"⟩
    (by decide) (by decide) (by decide) (by decide)
